import Mathlib

/-!
Shallow embedding of the CAPSTONE speech-analysis core (`analysis/stops.py`,
`analysis/fricative.py`, `analysis/affricate.py`, `analysis/nasal.py`,
`analysis/liquid.py`).

Modelling conventions:
* Python floats are modelled as real numbers (`ℝ`); `None`-able values as
  `Option ℝ`.
* The signal-processing front ends that call into external libraries
  (parselmouth / Praat pitch, formant, intensity tracking; scipy filtering and
  Welch PSD estimation) are treated as oracles: each analyzer's scoring
  pipeline is embedded as a function of the extraction outputs (the optional
  feature values those front ends produce), exactly as the Python code consumes
  them.  Pure numeric stages that the claims are about (silence trimming on an
  intensity curve, the VOT finalisation formula, the HF-contrast stanza on a
  PSD, Gaussian scoring, weighting, reject gates, argmax detection, result
  assembly) are embedded in full from the source.
* Python dicts with a fixed key set are embedded as structures or as functions
  on a closed enumeration; dicts used as string-keyed maps (feature maps,
  softscore maps with string keys) are embedded as association lists in the
  source's insertion order.
* `np.clip(x, lo, hi)` is `min (max x lo) hi`; Python `max`/`min` are `max`/
  `min` on `ℝ`; `x or 0.0` on an optional float is `Option.getD x 0`.
* Feedback strings are embedded with the source's branch structure; quote
  characters inside the English message texts are dropped.
-/

/-- `np.clip(x, lo, hi)`. -/
noncomputable def npclip (x lo hi : ℝ) : ℝ := min (max x lo) hi

/-- Python `max(iterable, key=...)` over (label, value) pairs: the running
maximum is replaced only on a strictly larger value, so the first maximal
element wins, exactly as CPython's `max`. -/
noncomputable def pyMaxAux {α : Type} (acc : α × ℝ) : List (α × ℝ) → α × ℝ
  | [] => acc
  | p :: t => pyMaxAux (if acc.2 < p.2 then p else acc) t

/-- Label of the first maximal pair (Python `max(d, key=d.get)`). -/
noncomputable def pyMax {α : Type} (h : α × ℝ) (t : List (α × ℝ)) : α :=
  (pyMaxAux h t).1

/-- Stable insertion for descending sort by value (Python
`sorted(..., key=value, reverse=True)`): built by `List.foldr`, an earlier
element moves past a later one only when the later value is strictly
larger, so earlier elements stay first on ties, as in Python's stable
sort. -/
noncomputable def insertDesc {α : Type} (p : α × ℝ) : List (α × ℝ) → List (α × ℝ)
  | [] => [p]
  | q :: t => if p.2 < q.2 then q :: insertDesc p t else p :: q :: t

/-- Stable descending sort by value. -/
noncomputable def sortDesc {α : Type} (l : List (α × ℝ)) : List (α × ℝ) :=
  l.foldr insertDesc []

/-- `np.max` of a value list (the callers guard the empty case themselves;
0 is returned there, mirroring the guarded `if vals.size else 0.0`). -/
noncomputable def valsMax : List ℝ → ℝ
  | [] => 0
  | h :: t => t.foldl max h

/-- Ascending sort of a list of reals (used by `np.median`). -/
noncomputable def sortAsc (l : List ℝ) : List ℝ :=
  ((sortDesc (l.map (fun x => ((), x)))).map Prod.snd).reverse

/-- `np.median` on a non-empty list (callers guard emptiness; 0 is a dummy). -/
noncomputable def npMedian (l : List ℝ) : ℝ :=
  let s := sortAsc l
  let n := s.length
  if n = 0 then 0
  else if n % 2 = 1 then s.getD (n / 2) 0
  else (s.getD (n / 2 - 1) 0 + s.getD (n / 2) 0) / 2

namespace Liquid

/-- `LIQUID_SET` from `analysis/liquid.py` (keys of `LIQUID_META`). -/
def LIQUID_SET : List String := ["라"]

noncomputable def REF_F3_ONSET_HZ : ℝ := 2500.0
noncomputable def REF_F3_SIGMA : ℝ := 650.0
noncomputable def REF_CLOSURE_DEPTH_DB : ℝ := 10.0
noncomputable def REF_CLOSURE_DEPTH_SIGMA : ℝ := 6.0
noncomputable def REF_CENTROID_HZ : ℝ := 900.0
noncomputable def REF_CENTROID_SIGMA : ℝ := 650.0
noncomputable def REF_FRIC_RATIO_PEAK : ℝ := 1.2
noncomputable def REF_FRIC_RATIO_SIGMA : ℝ := 0.7
noncomputable def REF_VOICED_FRAC : ℝ := 0.70
noncomputable def REF_VOICED_FRAC_SIGMA : ℝ := 0.20

noncomputable def W_F3 : ℝ := 0.25
noncomputable def W_CLOSURE : ℝ := 0.35
noncomputable def W_CENTROID : ℝ := 0.20
noncomputable def W_FRIC : ℝ := 0.10
noncomputable def W_VOICED : ℝ := 0.10

/-- `liquid.gaussian_score`: `None` propagates, otherwise
`100 * exp(-((x - mu)^2) / (2 * sigma^2))`. -/
noncomputable def gaussian_score (x : Option ℝ) (mu sigma : ℝ) : Option ℝ :=
  x.map fun v => 100 * Real.exp (-((v - mu) ^ 2) / (2 * sigma ^ 2))

/-- `liquid.trim_by_intensity`, embedded over the Praat intensity frames
(time, dB value) pairs.  `total` is `snd.get_total_duration()`, `y` the raw
samples, `sr` the sample rate.  The body never raises: the Python original
wraps everything in `try/except` returning `(y, 0.0)`, and the embedded
function is total. -/
noncomputable def trim_by_intensity (frames : List (ℝ × ℝ)) (total : ℝ)
    (y : List ℝ) (sr : ℕ) (silence_db_below_peak pad_s : ℝ) : List ℝ × ℝ :=
  let vmax := valsMax (frames.map Prod.snd)
  let thr := vmax - silence_db_below_peak
  let active := frames.filter fun p => thr ≤ p.2
  match active with
  | [] => (y, 0)
  | p0 :: rest =>
    let t0 : ℝ := max 0 (p0.1 - pad_s)
    let t1 : ℝ := min total (((p0 :: rest).getLastD p0).1 + pad_s)
    let a : ℤ := max 0 ⌊t0 * (sr : ℝ)⌋
    let b : ℤ := min (y.length : ℤ) ⌈t1 * (sr : ℝ)⌉
    if b ≤ a then (y, 0)
    else ((y.drop a.toNat).take (b - a).toNat, t0)

/-- Outputs of the Praat/scipy extraction front end of `analyze_liquid`
(`estimate_onset_t`, `estimate_f3_onset_hz`, `compute_closure_depth_db`,
`compute_centroid_hz`, `compute_frication_ratio_peak`,
`compute_voiced_fraction`); each may fail with `None`. -/
structure Extraction where
  onset_t : Option ℝ
  f3 : Option ℝ
  depth_db : Option ℝ
  centroid : Option ℝ
  fric_pk : Option ℝ
  voiced_frac : Option ℝ

/-- The `softscores` dict of `analyze_liquid` (insertion order: f3,
closure_depth, smoothness, non_fricative, voicing). -/
structure Softscores where
  f3 : ℝ
  closure_depth : ℝ
  smoothness : ℝ
  non_fricative : ℝ
  voicing : ℝ

/-- `_confidence_from_softscores`. -/
noncomputable def confidence_from_softscores (ss : Softscores) : ℝ :=
  let vals := [ss.f3, ss.closure_depth, ss.smoothness, ss.non_fricative, ss.voicing]
  npclip ((valsMax vals - npMedian vals) / 60.0) 0 1

/-- The `evaluation` dict of a liquid result.  On the no-onset short-circuit
path the Python dict has no `softscores`/`confidence` keys, modelled as
`none`. -/
structure Evaluation where
  softscores : Option Softscores
  final_score : ℝ
  confidence : Option ℝ
  is_rejected : Bool
  reject_reason : String

/-- `liquid.generate_feedback` (message texts abbreviated to their first
clause; the branch structure is the source's). -/
noncomputable def generate_feedback (is_rejected : Bool) (reject_reason : String)
    (final_score : ℝ) : String :=
  if is_rejected then
    if reject_reason = "too_fricative" then
      "This sounds too hissy (like 사). For 라, do NOT blow air."
    else if reject_reason = "too_unvoiced" then
      "This sounds too unvoiced. For 라, keep your voice on."
    else if reject_reason = "no_tongue_contact" then
      "It sounds too smooth, like it skipped the tongue touch."
    else "Try again: tap your tongue lightly behind your teeth."
  else if 75.0 ≤ final_score then "Good job! This sounds like 라."
  else if 60.0 ≤ final_score then "Close! Make the tongue touch clearer but still quick."
  else "Not quite yet. For 라, avoid a hissy start."

/-- A liquid `AnalysisResult`. -/
structure Result where
  syllable : String
  type : String
  features : List (String × Option ℝ)
  evaluation : Evaluation
  feedback : String

/-- Gate 1 of `analyze_liquid`: `fric_pk is not None and fric_pk >= 2.6`. -/
noncomputable def gate1 (fx : Extraction) : Bool :=
  match fx.fric_pk with
  | some v => decide (2.6 ≤ v)
  | none => false

/-- Gate 2 of `analyze_liquid`: `voiced_frac is not None and voiced_frac <= 0.35`. -/
noncomputable def gate2 (fx : Extraction) : Bool :=
  match fx.voiced_frac with
  | some v => decide (v ≤ 0.35)
  | none => false

/-- Gate 3 of `analyze_liquid`: `depth_db is not None and depth_db <= 3.5`. -/
noncomputable def gate3 (fx : Extraction) : Bool :=
  match fx.depth_db with
  | some v => decide (v ≤ 3.5)
  | none => false

/-- The body of `analyze_liquid` after the syllable check, as a function of
the extraction outputs. -/
noncomputable def run (fx : Extraction) : Result :=
  match fx.onset_t with
  | none =>
    { syllable := "라", type := "liquid", features := []
      evaluation :=
        { softscores := none, final_score := 0.0, confidence := none
          is_rejected := true, reject_reason := "no_onset" }
      feedback := "I couldnt find a clear onset. Try recording again closer to the mic." }
  | some onset_t =>
    let s_f3 := gaussian_score fx.f3 REF_F3_ONSET_HZ REF_F3_SIGMA
    let s_depth := gaussian_score fx.depth_db REF_CLOSURE_DEPTH_DB REF_CLOSURE_DEPTH_SIGMA
    let s_cent := gaussian_score fx.centroid REF_CENTROID_HZ REF_CENTROID_SIGMA
    let s_fric := gaussian_score fx.fric_pk REF_FRIC_RATIO_PEAK REF_FRIC_RATIO_SIGMA
    let s_voiced := gaussian_score fx.voiced_frac REF_VOICED_FRAC REF_VOICED_FRAC_SIGMA
    let ss : Softscores :=
      { f3 := s_f3.getD 0, closure_depth := s_depth.getD 0, smoothness := s_cent.getD 0
        non_fricative := s_fric.getD 0, voicing := s_voiced.getD 0 }
    let weighted : ℝ :=
      W_F3 * ss.f3 + W_CLOSURE * ss.closure_depth + W_CENTROID * ss.smoothness +
        W_FRIC * ss.non_fricative + W_VOICED * ss.voicing
    let rejected := gate1 fx || gate2 fx || gate3 fx
    let reject_reason : String :=
      if gate1 fx then "too_fricative"
      else if gate2 fx then "too_unvoiced"
      else if gate3 fx then "no_tongue_contact"
      else ""
    let final_score := if rejected then min weighted 35.0 else weighted
    { syllable := "라", type := "liquid"
      features :=
        [("onset_t", some onset_t), ("f3_onset_hz", fx.f3),
         ("closure_depth_db", fx.depth_db), ("spectral_centroid_hz", fx.centroid),
         ("frication_ratio_peak", fx.fric_pk), ("voiced_fraction", fx.voiced_frac)]
      evaluation :=
        { softscores := some ss, final_score := final_score
          confidence := some (confidence_from_softscores ss)
          is_rejected := rejected, reject_reason := reject_reason }
      feedback := generate_feedback rejected reject_reason final_score }

/-- `analyze_liquid`: unsupported syllables short-circuit to an error value
before any audio is touched (the extraction inputs are unused there). -/
noncomputable def analyze_liquid (syllable : String) (fx : Extraction) :
    Except String Result :=
  if syllable ∉ LIQUID_SET then
    .error "Unsupported liquid syllable (supported: 라)"
  else .ok (run fx)

end Liquid

namespace Fricative

/-- The closed fricative candidate set of `analysis/fricative.py`. -/
inductive Cat
  | s
  | ss
  | h
deriving DecidableEq

/-- String label stored in the result dicts. -/
def Cat.key : Cat → String
  | .s => "s"
  | .ss => "ss"
  | .h => "h"

/-- `FRICATIVE_SET` (keys of `FRICATIVE_META`). -/
def FRICATIVE_SET : List String := ["사", "싸", "하"]

/-- `FRICATIVE_META[syllable]["fricative"]`; only evaluated after the
membership check, so the catch-all branch is unreachable on real calls. -/
def FRICATIVE_META : String → Cat := fun s =>
  if s = "사" then .s else if s = "싸" then .ss else .h

noncomputable def REF_CENTROID_HZ : Cat → ℝ
  | .s => 4800.0
  | .ss => 6000.0
  | .h => 2800.0

noncomputable def REF_CENTROID_SIGMA : ℝ := 1700.0

noncomputable def REF_HF_CONTRAST_DB : Cat → ℝ
  | .h => 5.0
  | .s => 15.0
  | .ss => 20.0

noncomputable def REF_HF_CONTRAST_DB_SIGMA : ℝ := 8.0

noncomputable def REF_DURATION_MS : Cat → ℝ
  | .s => 120.0
  | .ss => 160.0
  | .h => 90.0

noncomputable def REF_DUR_SIGMA : ℝ := 80.0
noncomputable def SPECTRAL_WEIGHT : ℝ := 0.85
noncomputable def DURATION_WEIGHT : ℝ := 0.15

/-- `fricative.trim_by_intensity`: identical to the liquid/affricate variant
except for the extra `vmax <= 1e-6` guard (and a 30 dB default margin). -/
noncomputable def trim_by_intensity (frames : List (ℝ × ℝ)) (total : ℝ)
    (y : List ℝ) (sr : ℕ) (silence_db_below_peak pad_s : ℝ) : List ℝ × ℝ :=
  let vmax := valsMax (frames.map Prod.snd)
  if vmax ≤ 1e-6 then (y, 0)
  else
    let thr := vmax - silence_db_below_peak
    let active := frames.filter fun p => thr ≤ p.2
    match active with
    | [] => (y, 0)
    | p0 :: rest =>
      let t0 : ℝ := max 0 (p0.1 - pad_s)
      let t1 : ℝ := min total (((p0 :: rest).getLastD p0).1 + pad_s)
      let a : ℤ := max 0 ⌊t0 * (sr : ℝ)⌋
      let b : ℤ := min (y.length : ℤ) ⌈t1 * (sr : ℝ)⌉
      if b ≤ a then (y, 0)
      else ((y.drop a.toNat).take (b - a).toNat, t0)

/-- The HF-contrast stanza of `fricative.compute_spectral_features`
(lines 219-226), over the Welch PSD as (frequency, power) pairs.  `pxx` is
floored at `1e-18` first; band energies get a `1e-12` floor before the
ratio; the dB value is clamped with `np.clip(_, -20.0, 40.0)`. -/
noncomputable def hf_contrast_db_of_psd (psd : List (ℝ × ℝ)) : ℝ :=
  let e_low := (psd.map fun p => (p.1, max p.2 1e-18)).foldl
    (fun acc p => if 500.0 ≤ p.1 ∧ p.1 < 1500.0 then acc + p.2 else acc) 0
  let e_high := (psd.map fun p => (p.1, max p.2 1e-18)).foldl
    (fun acc p => if 4000.0 ≤ p.1 ∧ p.1 ≤ 8000.0 then acc + p.2 else acc) 0
  let rat := (e_high + 1e-12) / (e_low + 1e-12)
  npclip (10.0 * Real.logb 10 rat) (-20.0) 40.0

/-- `fricative.gaussian_score` (total on floats; the analyzer never passes
`None` into it). -/
noncomputable def gaussian_score (x mu sigma : ℝ) : ℝ :=
  100.0 * Real.exp (-((x - mu) ^ 2) / (2.0 * sigma * sigma))

/-- `score_spectral`: `None` if either feature is missing, else
`0.6 * centroid score + 0.4 * HF-contrast score`. -/
noncomputable def score_spectral (centroid hf_contrast : Option ℝ) (target : Cat) :
    Option ℝ :=
  match centroid, hf_contrast with
  | some c, some h =>
    some (0.6 * gaussian_score c (REF_CENTROID_HZ target) REF_CENTROID_SIGMA +
      0.4 * gaussian_score h (REF_HF_CONTRAST_DB target) REF_HF_CONTRAST_DB_SIGMA)
  | _, _ => none

/-- `score_duration`. -/
noncomputable def score_duration (dur_ms : Option ℝ) (target : Cat) : Option ℝ :=
  dur_ms.map fun d => gaussian_score d (REF_DURATION_MS target) REF_DUR_SIGMA

/-- `fricative.final_score`: missing components are excluded, both missing
gives `None`. -/
noncomputable def final_score (spec dur : Option ℝ) : Option ℝ :=
  match spec, dur with
  | none, none => none
  | some sp, none => some sp
  | none, some d => some d
  | some sp, some d => some (SPECTRAL_WEIGHT * sp + DURATION_WEIGHT * d)

/-- `fricative.generate_feedback` (texts abbreviated, branches preserved). -/
noncomputable def generate_feedback (target detected : Cat)
    (centroid hf_contrast : Option ℝ) : String :=
  if centroid.isNone ∨ hf_contrast.isNone then
    "I couldnt clearly capture the fricative noise."
  else if detected = target then
    match target with
    | .s => "Good. Your ㅅ hiss is clear."
    | .ss => "Good. Your ㅆ is sharp and tense."
    | .h => "Good. Your ㅎ is breathy."
  else if (target = .s ∨ target = .ss) ∧ detected = .h then
    "It sounds breathy like ㅎ."
  else if target = .h ∧ (detected = .s ∨ detected = .ss) then
    "It sounds like an ㅅ hiss."
  else if target = .ss ∧ detected = .s then
    "It sounds like ㅅ (too soft)."
  else if target = .s ∧ detected = .ss then
    "It sounds too tense or sharp like ㅆ."
  else "Detected as something else. Try again with a clearer sound."

/-- The `evaluation` dict of a fricative result. -/
structure Evaluation where
  detected_fricative : Cat
  spectral_score : Option ℝ
  duration_score : Option ℝ
  final_score : Option ℝ
  softscores : Cat → ℝ
  confidence : ℝ

/-- A fricative `AnalysisResult`. -/
structure Result where
  syllable : String
  type : String
  target : Cat
  features : List (String × Option ℝ)
  evaluation : Evaluation
  feedback : String

/-- The `soft[lab]` entry of `analyze_fricative`:
`final_score(score_spectral(...), score_duration(...)) or 0.0`. -/
noncomputable def soft_for (centroid hf : Option ℝ) (duration_ms : ℝ) (lab : Cat) : ℝ :=
  (final_score (score_spectral centroid hf lab)
    (score_duration (some duration_ms) lab)).getD 0

/-- The body of `analyze_fricative` after the syllable check.  The trimmed
signal, frication-region detection and Welch spectral slice are oracles;
their outputs (`centroid`, `hf`, region boundaries, trim offset) are the
inputs here.  `duration_ms` is always a real number. -/
noncomputable def run (target : Cat) (centroid hf : Option ℝ)
    (fric_start_t fric_end_t offset_s : ℝ) : Result :=
  let duration_ms := (fric_end_t - fric_start_t) * 1000.0
  let spec_score := score_spectral centroid hf target
  let dur_score := score_duration (some duration_ms) target
  let fs := final_score spec_score dur_score
  let soft : Cat → ℝ := soft_for centroid hf duration_ms
  let detected : Cat :=
    pyMax (Cat.s, soft .s) [(Cat.ss, soft .ss), (Cat.h, soft .h)]
  let sorted := sortDesc [(Cat.s, soft .s), (Cat.ss, soft .ss), (Cat.h, soft .h)]
  let conf0 := ((sorted.getD 0 (Cat.s, 0)).2 - (sorted.getD 1 (Cat.s, 0)).2) / 100.0
  let conf := max 0.0 (min 1.0 conf0)
  { syllable := "", type := "fricative", target := target
    features :=
      [("spectral_centroid_hz", centroid), ("hf_contrast", hf),
       ("duration_ms", some duration_ms), ("trim_offset_s", some offset_s),
       ("fric_start_t", some (fric_start_t + offset_s)),
       ("fric_end_t", some (fric_end_t + offset_s))]
    evaluation :=
      { detected_fricative := detected, spectral_score := spec_score
        duration_score := dur_score, final_score := fs
        softscores := soft, confidence := conf }
    feedback := generate_feedback target detected centroid hf }

/-- `analyze_fricative`: unsupported syllables short-circuit to the error
value before any audio work. -/
noncomputable def analyze_fricative (syllable : String) (centroid hf : Option ℝ)
    (fric_start_t fric_end_t offset_s : ℝ) : Except String Result :=
  if syllable ∉ FRICATIVE_SET then .error "Unsupported fricative syllable"
  else .ok { run (FRICATIVE_META syllable) centroid hf fric_start_t fric_end_t offset_s
             with syllable := syllable }

end Fricative

namespace Affricate

/-- The closed affricate candidate set of `analysis/affricate.py`. -/
inductive Cat
  | fortis
  | lenis
  | aspirated
deriving DecidableEq

/-- String label stored in the result dicts. -/
def Cat.key : Cat → String
  | .fortis => "fortis"
  | .lenis => "lenis"
  | .aspirated => "aspirated"

/-- `AFFRICATE_SET` (keys of `AFFRICATE_META`). -/
def AFFRICATE_SET : List String := ["자", "짜", "차"]

/-- `AFFRICATE_META[syllable]["affricate"]`; only evaluated after the
membership check. -/
def AFFRICATE_META : String → Cat := fun s =>
  if s = "자" then .lenis else if s = "짜" then .fortis else .aspirated

noncomputable def REF_VOT_MS : Cat → ℝ
  | .fortis => 15.0
  | .lenis => 40.0
  | .aspirated => 80.0

noncomputable def REF_VOT_SIGMA : ℝ := 25.0

noncomputable def REF_FRIC_DUR_MS : Cat → ℝ
  | .fortis => 80.0
  | .lenis => 110.0
  | .aspirated => 150.0

noncomputable def REF_FRIC_DUR_SIGMA : ℝ := 60.0

noncomputable def REF_CENTROID_HZ : Cat → ℝ
  | .fortis => 6200.0
  | .lenis => 5000.0
  | .aspirated => 4200.0

noncomputable def REF_CENTROID_SIGMA : ℝ := 1700.0

noncomputable def REF_HF_CONTRAST_DB : Cat → ℝ
  | .fortis => 22.0
  | .lenis => 15.0
  | .aspirated => 10.0

noncomputable def REF_HF_CONTRAST_SIGMA : ℝ := 8.0

noncomputable def W_VOT : ℝ := 0.30
noncomputable def W_SPEC : ℝ := 0.45
noncomputable def W_FRIC_DUR : ℝ := 0.25

/-- `VOT_CAP_MS`: hard safety cap on VOT before scoring. -/
noncomputable def VOT_CAP_MS : ℝ := 160.0

/-- `affricate.trim_by_intensity`: same body as the liquid variant (40 dB
default margin, 50 ms pad). -/
noncomputable def trim_by_intensity (frames : List (ℝ × ℝ)) (total : ℝ)
    (y : List ℝ) (sr : ℕ) (silence_db_below_peak pad_s : ℝ) : List ℝ × ℝ :=
  let vmax := valsMax (frames.map Prod.snd)
  let thr := vmax - silence_db_below_peak
  let active := frames.filter fun p => thr ≤ p.2
  match active with
  | [] => (y, 0)
  | p0 :: rest =>
    let t0 : ℝ := max 0 (p0.1 - pad_s)
    let t1 : ℝ := min total (((p0 :: rest).getLastD p0).1 + pad_s)
    let a : ℤ := max 0 ⌊t0 * (sr : ℝ)⌋
    let b : ℤ := min (y.length : ℤ) ⌈t1 * (sr : ℝ)⌉
    if b ≤ a then (y, 0)
    else ((y.drop a.toNat).take (b - a).toNat, t0)

/-- Tail of `affricate.estimate_vot_ms` (lines 269-274): once the voicing
scan has produced `voiced_t` (or failed with `None`),
`vot_ms = max(0, (voiced_t - burst_t) * 1000)`. -/
noncomputable def vot_finalize (burst_t : ℝ) (voiced_t : Option ℝ) : Option ℝ :=
  voiced_t.map fun t => max 0 ((t - burst_t) * 1000.0)

/-- The HF-contrast stanza of `affricate.compute_frication_features`
(lines 381-387): bands 500-2000 Hz (half-open) and 3500-8000 Hz, clamped
with `np.clip(_, -30.0, 60.0)`. -/
noncomputable def hf_db_of_psd (psd : List (ℝ × ℝ)) : ℝ :=
  let e_low := (psd.map fun p => (p.1, max p.2 1e-18)).foldl
    (fun acc p => if 500.0 ≤ p.1 ∧ p.1 < 2000.0 then acc + p.2 else acc) 0
  let e_high := (psd.map fun p => (p.1, max p.2 1e-18)).foldl
    (fun acc p => if 3500.0 ≤ p.1 ∧ p.1 ≤ 8000.0 then acc + p.2 else acc) 0
  npclip (10.0 * Real.logb 10 ((e_high + 1e-12) / (e_low + 1e-12))) (-30.0) 60.0

/-- `affricate.gaussian_score`: `None` propagates. -/
noncomputable def gaussian_score (x : Option ℝ) (mu sigma : ℝ) : Option ℝ :=
  x.map fun v => 100 * Real.exp (-((v - mu) ^ 2) / (2 * sigma ^ 2))

/-- `_quality_label`. -/
noncomputable def quality_label (score : Option ℝ) : String :=
  match score with
  | none => "Unknown"
  | some s =>
    if 80 ≤ s then "Excellent"
    else if 65 ≤ s then "Good"
    else if 45 ≤ s then "Close"
    else "Needs practice"

/-- `affricate.generate_feedback` (texts abbreviated, branches preserved). -/
noncomputable def generate_feedback (target detected : Cat)
    (target_score : Option ℝ) : String :=
  let quality := quality_label target_score
  if target = detected then
    match target with
    | .fortis =>
      if quality = "Excellent" ∨ quality = "Good" then "This sounds like 짜."
      else "It is basically 짜, but not consistent yet."
    | .lenis =>
      if quality = "Excellent" ∨ quality = "Good" then "This sounds like 자."
      else "It is close to 자, but it drifts."
    | .aspirated =>
      if quality = "Excellent" ∨ quality = "Good" then "This sounds like 차."
      else "It is basically 차, but the timing is off."
  else
    match target, detected with
    | .aspirated, .fortis => "Right now it sounds more like 짜. Add more air."
    | .aspirated, .lenis => "Right now it sounds closer to 자. Push a bit more air."
    | .aspirated, _ => "차 needs audible air after the release."
    | .fortis, .aspirated => "Too much air is coming out. Reduce the air for 짜."
    | .fortis, .lenis => "Right now it sounds like 자. Tighten your tongue for 짜."
    | .fortis, _ => "짜 should be short and tense."
    | .lenis, .fortis => "Right now it sounds too strong, like 짜. Relax for 자."
    | .lenis, .aspirated => "Right now it sounds like 차 with too much air."
    | .lenis, _ => "자 should be balanced."

/-- The `evaluation` dict of an affricate result. -/
structure Evaluation where
  detected_affricate : Cat
  softscores : Cat → ℝ
  final_score : ℝ

/-- An affricate `AnalysisResult`. -/
structure Result where
  syllable : String
  type : String
  target : Cat
  features : List (String × Option ℝ)
  evaluation : Evaluation
  feedback : String

/-- Per-candidate score of `analyze_affricate`: the weighted blend when all
three component scores exist, otherwise the default `0.0` the Python loop
leaves in place. -/
noncomputable def candidate_score (s_vot s_spec s_dur : Option ℝ) : ℝ :=
  match s_vot, s_spec, s_dur with
  | some a, some b, some c => W_VOT * a + W_SPEC * b + W_FRIC_DUR * c
  | _, _, _ => 0.0

/-- The per-candidate loop body of `analyze_affricate`: the four feature
scores against candidate `lab`, the 0.6/0.4 spectral blend, and the final
all-or-nothing combination. -/
noncomputable def scores_for (vot centroid hf_db : Option ℝ) (fric_dur : ℝ)
    (lab : Cat) : ℝ :=
  let s_vot := gaussian_score vot (REF_VOT_MS lab) REF_VOT_SIGMA
  let s_dur := gaussian_score (some fric_dur) (REF_FRIC_DUR_MS lab) REF_FRIC_DUR_SIGMA
  let s_cent := gaussian_score centroid (REF_CENTROID_HZ lab) REF_CENTROID_SIGMA
  let s_hf := gaussian_score hf_db (REF_HF_CONTRAST_DB lab) REF_HF_CONTRAST_SIGMA
  let s_spec : Option ℝ :=
    match s_cent, s_hf with
    | some a, some b => some (0.6 * a + 0.4 * b)
    | _, _ => none
  candidate_score s_vot s_spec s_dur

/-- The body of `analyze_affricate` after the syllable check.  Frication
region detection and the spectral slice are oracles; `vot0` is the raw
`estimate_vot_ms` output, which the body clamps at `VOT_CAP_MS` before any
scoring. -/
noncomputable def run (target : Cat) (fric_t0 fric_t1 : ℝ) (vot0 : Option ℝ)
    (centroid hf_db : Option ℝ) : Result :=
  let fric_dur := (fric_t1 - fric_t0) * 1000.0
  let vot := vot0.map fun v => min v VOT_CAP_MS
  let scores : Cat → ℝ := scores_for vot centroid hf_db fric_dur
  let detected : Cat :=
    pyMax (Cat.fortis, scores .fortis) [(Cat.lenis, scores .lenis), (Cat.aspirated, scores .aspirated)]
  let target_score := scores target
  { syllable := "", type := "affricate", target := target
    features :=
      [("vot_ms", vot), ("frication_duration_ms", some fric_dur),
       ("spectral_centroid_hz", centroid), ("hf_contrast_db", hf_db)]
    evaluation :=
      { detected_affricate := detected, softscores := scores
        final_score := target_score }
    feedback := generate_feedback target detected (some target_score) }

/-- `analyze_affricate`: unsupported syllables short-circuit to the error
value before any audio work. -/
noncomputable def analyze_affricate (syllable : String) (fric_t0 fric_t1 : ℝ)
    (vot0 : Option ℝ) (centroid hf_db : Option ℝ) : Except String Result :=
  if syllable ∉ AFFRICATE_SET then .error "Unsupported affricate syllable"
  else .ok { run (AFFRICATE_META syllable) fric_t0 fric_t1 vot0 centroid hf_db
             with syllable := syllable }

end Affricate

namespace Stops

/-- `STOP_SET` (keys of `STOP_META`). -/
def STOP_SET : List String := ["가", "까", "카", "다", "따", "타", "바", "빠", "파"]

/-- `STOP_META[syllable]` as (place, phonation) strings; only evaluated
after the membership check. -/
def STOP_META : String → String × String := fun s =>
  if s = "가" then ("velar", "lenis")
  else if s = "까" then ("velar", "fortis")
  else if s = "카" then ("velar", "aspirated")
  else if s = "다" then ("alveolar", "lenis")
  else if s = "따" then ("alveolar", "fortis")
  else if s = "타" then ("alveolar", "aspirated")
  else if s = "바" then ("labial", "lenis")
  else if s = "빠" then ("labial", "fortis")
  else ("labial", "aspirated")

/-- `PLACE_F2_CENTERS_HZ` in dict insertion order. -/
noncomputable def PLACE_F2_CENTERS_HZ : List (String × ℝ) :=
  [("labial", 1200.0), ("alveolar", 1700.0), ("velar", 2200.0)]

noncomputable def PLACE_TOLERANCE_HZ : ℝ := 600.0
noncomputable def PLACE_SIGMA_HZ : ℝ := 700.0
noncomputable def PLACE_CONF_MARGIN_EPS : ℝ := 1e-9
noncomputable def PLACE_LOW_CONF_THRESH : ℝ := 0.20

/-- `VOT_RANGES_MS[target]` as (low, high, center); `None` for keys absent
from the dict. -/
noncomputable def VOT_RANGES_MS : String → Option (ℝ × ℝ × ℝ) := fun k =>
  if k = "fortis" then some (0.0, 20.0, 10.0)
  else if k = "lenis" then some (20.0, 50.0, 35.0)
  else if k = "aspirated" then some (60.0, 100.0, 80.0)
  else none

noncomputable def VOT_SOFT_MARGIN_MS : ℝ := 15.0

/-- `F0Z_TARGETS[target]` as (center, tolerance). -/
noncomputable def F0Z_TARGETS : String → Option (ℝ × ℝ) := fun k =>
  if k = "lenis" then some (-0.5, 0.7)
  else if k = "fortis" then some (1.0, 0.7)
  else if k = "aspirated" then some (0.6, 0.7)
  else none

noncomputable def PLACE_WEIGHT : ℝ := 0.40
noncomputable def PHONATION_WEIGHT : ℝ := 0.60

/-- `VOT_BOUNDARIES_MS`. -/
noncomputable def VOT_BOUNDARIES_MS : List ℝ := [20.0, 50.0, 60.0, 100.0]

noncomputable def VOT_BOUNDARY_NEAR_MS : ℝ := 6.0
noncomputable def F0Z_SIGMA : ℝ := 0.8

/-- Tail of `stops.estimate_vot_ms` (lines 166-174): given the burst time and
the relative voicing-onset time found by the frame scan (or `None` when both
the gated scan and the pitch-range fallback fail), the reported triple is
`(vot_ms, burst_t, voiced_t)` with `voiced_t = burst_t + voiced_rel` and
`vot_ms = max(0, (voiced_t - burst_t) * 1000)`. -/
noncomputable def vot_finalize (burst_t : ℝ) (voiced_rel : Option ℝ) :
    Option ℝ × ℝ × Option ℝ :=
  match voiced_rel with
  | none => (none, burst_t, none)
  | some rel =>
    let voiced_t := burst_t + rel
    (some (max 0 ((voiced_t - burst_t) * 1000.0)), burst_t, some voiced_t)

/-- `compute_f0_z` with the calibration as an optional (mean, sd) pair. -/
noncomputable def compute_f0_z (f0_onset_hz : Option ℝ) (calib : Option (ℝ × ℝ)) :
    Option ℝ :=
  match f0_onset_hz, calib with
  | some f0, some (mean_hz, sd_hz) =>
    if sd_hz ≤ 1e-6 then none else some ((f0 - mean_hz) / sd_hz)
  | _, _ => none

/-- `gaussian_distance_score`: Gaussian kernel with a non-positive sigma
replaced by 1 and the output clamped into [0, 100]. -/
noncomputable def gaussian_distance_score (value center sigma : ℝ) : ℝ :=
  let sigma := if sigma ≤ 0 then 1.0 else sigma
  let d := value - center
  let s := 100.0 * Real.exp (-(d * d) / (2.0 * sigma * sigma))
  max 0.0 (min 100.0 s)

/-- `linear_distance_score`. -/
noncomputable def linear_distance_score (value center tol : ℝ) : ℝ :=
  let d := |value - center|
  let s := 100.0 * (1.0 - d / tol)
  max 0.0 (min 100.0 s)

/-- `classify_place`: nearest F2 center, `"unknown"` on a missing feature.
The loop keeps the first strictly-closest center in dict order. -/
noncomputable def classify_place (f2_onset_hz : Option ℝ) : String :=
  match f2_onset_hz with
  | none => "unknown"
  | some v =>
    (pyMaxAux ("labial", -|v - 1200.0|)
      [("alveolar", -|v - 1700.0|), ("velar", -|v - 2200.0|)]).1

/-- `compute_place_score`. -/
noncomputable def compute_place_score (f2_onset_hz : Option ℝ) (target_place : String) :
    Option ℝ :=
  match f2_onset_hz, (PLACE_F2_CENTERS_HZ.lookup target_place) with
  | some v, some center => some (gaussian_distance_score v center PLACE_SIGMA_HZ)
  | _, _ => none

/-- `compute_place_softscores_and_confidence`: returns
(detected place, confidence, soft scores); `("unknown", None, {})` on a
missing F2. -/
noncomputable def compute_place_softscores_and_confidence (f2_onset_hz : Option ℝ) :
    String × Option ℝ × List (String × ℝ) :=
  match f2_onset_hz with
  | none => ("unknown", none, [])
  | some v =>
    let soft := PLACE_F2_CENTERS_HZ.map fun p =>
      (p.1, gaussian_distance_score v p.2 PLACE_SIGMA_HZ)
    let sorted := sortDesc soft
    let best := sorted.getD 0 ("unknown", 0)
    let second_s := if 1 < sorted.length then (sorted.getD 1 ("", 0)).2 else 0.0
    let conf := (best.2 - second_s) / (best.2 + PLACE_CONF_MARGIN_EPS)
    (best.1, some (max 0.0 (min 1.0 conf)), soft)

/-- `vot_status`. -/
noncomputable def vot_status (vot_ms : Option ℝ) : String :=
  match vot_ms with
  | none => "unknown"
  | some v =>
    if v < 20 then "fortis-like"
    else if v < 50 then "lenis-like"
    else if v < 100 then "aspirated-like"
    else "over-aspirated"

/-- `classify_phonation_by_vot`. -/
noncomputable def classify_phonation_by_vot (vot_ms : Option ℝ) : String :=
  match vot_ms with
  | none => "unknown"
  | some v =>
    if v < 20.0 then "fortis"
    else if v < 50.0 then "lenis"
    else if v < 100.0 then "aspirated"
    else "over-aspirated"

/-- `compute_vot_score`: linear toward the center inside the reference range,
bounded exponential decay with a soft margin outside it. -/
noncomputable def compute_vot_score (vot_ms : Option ℝ) (target_phonation : String) :
    Option ℝ :=
  match vot_ms, VOT_RANGES_MS target_phonation with
  | some v, some (lo, hi, center) =>
    if lo ≤ v ∧ v ≤ hi then
      some (linear_distance_score v center (max ((hi - lo) / 2.0) 1.0))
    else
      let d := if v < lo then lo - v else v - hi
      some (max 0.0 (min 70.0 (70.0 * Real.exp (-d / 25.0))))
  | _, _ => none

/-- `compute_f0_score`. -/
noncomputable def compute_f0_score (f0_z : Option ℝ) (target_phonation : String) :
    Option ℝ :=
  match f0_z, F0Z_TARGETS target_phonation with
  | some z, some (center, _tol) => some (gaussian_distance_score z center F0Z_SIGMA)
  | _, _ => none

/-- `distance_to_nearest_boundary`. -/
noncomputable def distance_to_nearest_boundary (vot_ms : Option ℝ) : Option ℝ :=
  vot_ms.map fun v =>
    min (min |v - 20.0| |v - 50.0|) (min |v - 60.0| |v - 100.0|)

/-- `compute_phonation_score`: VOT primary, F0 secondary, adaptive weighting
near a VOT category boundary; a missing cue is excluded rather than scored
as zero. -/
noncomputable def compute_phonation_score (vot_score f0_score vot_ms : Option ℝ) :
    Option ℝ :=
  match vot_score, f0_score with
  | none, none => none
  | none, some f => some f
  | some v, none => some v
  | some v, some f =>
    let w_f0 : ℝ :=
      match distance_to_nearest_boundary vot_ms with
      | none => 0.25
      | some d => if d ≤ VOT_BOUNDARY_NEAR_MS then 0.45 else 0.20
    some ((1.0 - w_f0) * v + w_f0 * f)

/-- `compute_final_score` (lines 398-405): `None` only when both subscores
are missing; a single present subscore passes through unweighted. -/
noncomputable def compute_final_score (place_score phonation_score : Option ℝ) :
    Option ℝ :=
  match place_score, phonation_score with
  | none, none => none
  | none, some p => some p
  | some p, none => some p
  | some pl, some ph => some (PLACE_WEIGHT * pl + PHONATION_WEIGHT * ph)

/-- The `evaluation` dict of `evaluate_stop` (the constant `plots` echo of
the reference tables is omitted; `diagnostics` is flattened). -/
structure Evaluation where
  detected_place : String
  detected_phonation : String
  place_score : Option ℝ
  place_confidence : Option ℝ
  place_softscores : List (String × ℝ)
  vot_score : Option ℝ
  f0_score : Option ℝ
  phonation_score : Option ℝ
  final_score : Option ℝ
  vot_status : String
  near_boundary_ms : Option ℝ

/-- `evaluate_stop`. -/
noncomputable def evaluate_stop (f2_onset_hz vot_ms f0_z : Option ℝ)
    (target_place target_phonation : String) : Evaluation :=
  let psc := compute_place_softscores_and_confidence f2_onset_hz
  let place_score := compute_place_score f2_onset_hz target_place
  let detected_phonation := classify_phonation_by_vot vot_ms
  let vot_sc := compute_vot_score vot_ms target_phonation
  let f0_sc := compute_f0_score f0_z target_phonation
  let phonation_sc := compute_phonation_score vot_sc f0_sc vot_ms
  let final_sc := compute_final_score place_score phonation_sc
  { detected_place := psc.1, detected_phonation := detected_phonation
    place_score := place_score, place_confidence := psc.2.1
    place_softscores := psc.2.2, vot_score := vot_sc, f0_score := f0_sc
    phonation_score := phonation_sc, final_score := final_sc
    vot_status := vot_status vot_ms
    near_boundary_ms := distance_to_nearest_boundary vot_ms }

/-- `generate_stop_feedback` (texts abbreviated, branches preserved). -/
noncomputable def generate_stop_feedback (target_place detected_place
    target_phonation detected_phonation : String)
    (place_score phonation_score place_confidence : Option ℝ) : String :=
  if place_score.isNone ∧ phonation_score.isNone then
    "I couldnt measure this recording clearly. Please record again."
  else
    let place_hint : String :=
      if detected_place ≠ "unknown" ∧ detected_place ≠ target_place then
        if target_place = "velar" then "Press the back of your tongue, then release."
        else if target_place = "alveolar" then "Touch just behind your upper teeth, then release."
        else if target_place = "labial" then "Close your lips firmly, then release smoothly."
        else ""
      else
        match place_confidence with
        | some c =>
          if c < PLACE_LOW_CONF_THRESH then
            if target_place = "velar" then "Almost there. Press the back of your tongue a bit more firmly."
            else if target_place = "alveolar" then "Almost there. Let your tongue tip touch a bit more firmly."
            else if target_place = "labial" then "Almost there. Close your lips a little more firmly."
            else ""
          else if target_place = "labial" then "Your lip position is good."
          else if target_place = "alveolar" then "Your tongue position is good."
          else if target_place = "velar" then "Your tongue-back position is good."
          else "Your mouth position is good."
        | none =>
          if target_place = "labial" then "Your lip position is good."
          else if target_place = "alveolar" then "Your tongue position is good."
          else if target_place = "velar" then "Your tongue-back position is good."
          else "Your mouth position is good."
    let phon_hint : String :=
      if detected_phonation ≠ "unknown" ∧ detected_phonation ≠ target_phonation then
        if target_phonation = "fortis" then "Say it very short and hard with NO puff of air."
        else if target_phonation = "lenis" then "Say it gently, do NOT burst air."
        else if target_phonation = "aspirated" then "Release with a clear puff of breath."
        else ""
      else ""
    if phon_hint ≠ "" ∧ place_hint ≠ "" then phon_hint ++ " " ++ place_hint
    else if phon_hint ≠ "" then phon_hint
    else if place_hint ≠ "" then place_hint
    else "Good overall. Try to repeat the same feeling again."

/-- A stop `AnalysisResult`. -/
structure Result where
  syllable : String
  type : String
  target_place : String
  target_phonation : String
  features : List (String × Option ℝ)
  evaluation : Evaluation
  feedback : String

/-- The body of `analyze_stop` after the syllable check; the Praat feature
extraction (`estimate_vot_ms` scan, `estimate_f2_onset_hz`,
`estimate_vowel_onset_f0_hz`) is the oracle input. -/
noncomputable def run (target_place target_phonation : String)
    (vot_ms f2_onset f0_onset_hz : Option ℝ) (calib : Option (ℝ × ℝ)) : Result :=
  let f0_z := compute_f0_z f0_onset_hz calib
  let ev := evaluate_stop f2_onset vot_ms f0_z target_place target_phonation
  { syllable := "", type := "stop"
    target_place := target_place, target_phonation := target_phonation
    features :=
      [("vot_ms", vot_ms), ("f2_onset_hz", f2_onset),
       ("f0_onset_hz", f0_onset_hz), ("f0_z", f0_z)]
    evaluation := ev
    feedback := generate_stop_feedback target_place ev.detected_place
      target_phonation ev.detected_phonation ev.place_score ev.phonation_score
      ev.place_confidence }

/-- `analyze_stop`: unsupported syllables short-circuit to the error value
(the source is an f-string naming the syllable) before any audio work. -/
noncomputable def analyze_stop (syllable : String)
    (vot_ms f2_onset f0_onset_hz : Option ℝ) (calib : Option (ℝ × ℝ)) :
    Except String Result :=
  if syllable ∉ STOP_SET then
    .error (syllable ++ " is not a supported stop syllable in this module.")
  else
    .ok { run (STOP_META syllable).1 (STOP_META syllable).2 vot_ms f2_onset f0_onset_hz calib
          with syllable := syllable }

end Stops

namespace Nasal

/-- `NASAL_SET` (keys of `NASAL_META`). -/
def NASAL_SET : List String := ["마", "나"]

/-- `NASAL_META[syllable]["place"]`; only evaluated after the membership
check. -/
def NASAL_META : String → String := fun s => if s = "마" then "labial" else "alveolar"

/-- `REF_F2_ONSET_HZ` per place. -/
noncomputable def REF_F2_ONSET_HZ : String → ℝ := fun p =>
  if p = "labial" then 1200.0 else 1700.0

noncomputable def REF_F2_SIGMA : ℝ := 350.0

/-- `REF_LOW_RATIO["nasal"]`. -/
noncomputable def REF_LOW_RAT : ℝ := 0.72

/-- `REF_LOW_RATIO_SIGMA`. -/
noncomputable def REF_LOW_RAT_SIGMA : ℝ := 0.22

noncomputable def REF_CENTROID_HZ : ℝ := 500.0
noncomputable def REF_CENTROID_SIGMA : ℝ := 350.0
noncomputable def W_PLACE : ℝ := 0.55
noncomputable def W_NASALITY : ℝ := 0.45

/-- `nasal.trim_by_intensity` (lines 95-126): same body as the liquid and
affricate variants (40 dB default margin, 50 ms pad), embedded over the
Praat intensity frames. -/
noncomputable def trim_by_intensity (frames : List (ℝ × ℝ)) (total : ℝ)
    (y : List ℝ) (sr : ℕ) (silence_db_below_peak pad_s : ℝ) : List ℝ × ℝ :=
  let vmax := valsMax (frames.map Prod.snd)
  let thr := vmax - silence_db_below_peak
  let active := frames.filter fun p => thr ≤ p.2
  match active with
  | [] => (y, 0)
  | p0 :: rest =>
    let t0 : ℝ := max 0 (p0.1 - pad_s)
    let t1 : ℝ := min total (((p0 :: rest).getLastD p0).1 + pad_s)
    let a : ℤ := max 0 ⌊t0 * (sr : ℝ)⌋
    let b : ℤ := min (y.length : ℤ) ⌈t1 * (sr : ℝ)⌉
    if b ≤ a then (y, 0)
    else ((y.drop a.toNat).take (b - a).toNat, t0)

/-- `nasal.gaussian_score`: `None` propagates. -/
noncomputable def gaussian_score (x : Option ℝ) (mu sigma : ℝ) : Option ℝ :=
  x.map fun v => 100 * Real.exp (-((v - mu) ^ 2) / (2 * sigma ^ 2))

/-- `_score_nasality`: all-or-nothing blend of the low-frequency dominance
and centroid scores. -/
noncomputable def score_nasality (low_rat centroid : Option ℝ) : Option ℝ :=
  match gaussian_score low_rat REF_LOW_RAT REF_LOW_RAT_SIGMA,
      gaussian_score centroid REF_CENTROID_HZ REF_CENTROID_SIGMA with
  | some s_lr, some s_c => some (0.55 * s_lr + 0.45 * s_c)
  | _, _ => none

/-- `_confidence_from_scores`: (place margin, overall confidence). -/
noncomputable def confidence_from_scores (place_target place_other nasality : ℝ) :
    ℝ × ℝ :=
  let place_margin := place_target - place_other
  let c_place := npclip ((place_target - 50.0) / 50.0) 0 1
  let c_nasal := npclip ((nasality - 40.0) / 60.0) 0 1
  (place_margin, npclip (0.6 * c_place + 0.4 * c_nasal) 0 1)

/-- The `evaluation` dict of a nasal result.  On the no-onset path the
Python dict carries `detected_place: None` and an empty `softscores` dict. -/
structure Evaluation where
  detected_place : Option String
  softscores : List (String × ℝ)
  final_score : ℝ
  place_margin : ℝ
  overall_confidence : ℝ

/-- A nasal `AnalysisResult`. -/
structure Result where
  syllable : String
  type : String
  target_place : String
  features : List (String × Option ℝ)
  evaluation : Evaluation
  feedback : String

/-- `nasal.generate_feedback` (texts abbreviated, branches preserved). -/
noncomputable def generate_feedback (target_place detected_place : String)
    (final_score place_target_score place_other_score nasality_score : ℝ) : String :=
  let place_margin := place_target_score - place_other_score
  let target_word := if target_place = "labial" then "마" else "나"
  let detected_word := if detected_place = "labial" then "마" else "나"
  let is_correct := target_place = detected_place
  if is_correct ∧ 75.0 ≤ final_score ∧ 10.0 ≤ place_margin ∧ 55.0 ≤ nasality_score then
    if target_place = "labial" then "Good job! This sounds like 마."
    else "Good job! This sounds like 나."
  else if is_correct then
    "Close. It is basically " ++ target_word ++ ", but not very strong or clear yet."
  else if target_place = "labial" then
    "It sounds closer to " ++ detected_word ++ ". For 마, start with your lips closed."
  else
    "It sounds closer to " ++ detected_word ++ ". For 나, use your tongue."

/-- The feature keys of a nasal result (both paths list all four). -/
def FEATURE_KEYS : List String :=
  ["onset_t", "f2_onset_hz", "low_ratio_0_500_over_0_2000", "spectral_centroid_hz"]

/-- The body of `analyze_nasal` after the syllable check; onset detection,
the murmur-window features and F2 sampling are oracle inputs. -/
noncomputable def run (target_place : String) (onset_t : Option ℝ)
    (low_rat centroid f2 : Option ℝ) : Result :=
  match onset_t with
  | none =>
    { syllable := "", type := "nasal", target_place := target_place
      features :=
        [("onset_t", none), ("f2_onset_hz", none),
         ("low_ratio_0_500_over_0_2000", none), ("spectral_centroid_hz", none)]
      evaluation :=
        { detected_place := none, softscores := [], final_score := 0.0
          place_margin := 0.0, overall_confidence := 0.0 }
      feedback := "I couldnt find a clear nasal onset. Try recording again closer to the mic." }
  | some t =>
    let place_scores : List (String × ℝ) :=
      [("labial", (gaussian_score f2 (REF_F2_ONSET_HZ "labial") REF_F2_SIGMA).getD 0),
       ("alveolar", (gaussian_score f2 (REF_F2_ONSET_HZ "alveolar") REF_F2_SIGMA).getD 0)]
    let detected_place : String :=
      pyMax ("labial", (place_scores.lookup "labial").getD 0)
        [("alveolar", (place_scores.lookup "alveolar").getD 0)]
    let s_nasal := (score_nasality low_rat centroid).getD 0
    let s_place_target := (place_scores.lookup target_place).getD 0
    let other_place := if target_place = "labial" then "alveolar" else "labial"
    let s_place_other := (place_scores.lookup other_place).getD 0
    let final_score := W_PLACE * s_place_target + W_NASALITY * s_nasal
    let conf := confidence_from_scores s_place_target s_place_other s_nasal
    { syllable := "", type := "nasal", target_place := target_place
      features :=
        [("onset_t", some t), ("f2_onset_hz", f2),
         ("low_ratio_0_500_over_0_2000", low_rat), ("spectral_centroid_hz", centroid)]
      evaluation :=
        { detected_place := some detected_place
          softscores :=
            [("place_labial", (place_scores.lookup "labial").getD 0),
             ("place_alveolar", (place_scores.lookup "alveolar").getD 0),
             ("nasality", s_nasal)]
          final_score := final_score
          place_margin := conf.1, overall_confidence := conf.2 }
      feedback := generate_feedback target_place detected_place final_score
        s_place_target s_place_other s_nasal }

/-- `analyze_nasal`. -/
noncomputable def analyze_nasal (syllable : String) (onset_t : Option ℝ)
    (low_rat centroid f2 : Option ℝ) : Except String Result :=
  if syllable ∉ NASAL_SET then
    .error "Unsupported nasal syllable (supported: 마, 나)"
  else
    .ok { run (NASAL_META syllable) onset_t low_rat centroid f2
          with syllable := syllable }

end Nasal

section Lemmas

/-- The Gaussian kernel value `100 * exp(-(x-mu)^2 / (2 sigma^2))` lies in
(0, 100] for every real input, including degenerate sigma (real division by
zero is zero in the model, matching the fact that all reference sigmas are
positive). -/
theorem gauss_val_bounds (v mu s : ℝ) :
    0 ≤ 100 * Real.exp (-((v - mu) ^ 2) / (2 * s ^ 2)) ∧
      100 * Real.exp (-((v - mu) ^ 2) / (2 * s ^ 2)) ≤ 100 := by
  constructor
  · positivity
  · have h1 : Real.exp (-((v - mu) ^ 2) / (2 * s ^ 2)) ≤ 1 := by
      rw [Real.exp_le_one_iff, neg_div]
      exact neg_nonpos.mpr (div_nonneg (sq_nonneg _) (by positivity))
    linarith

/-- Same bound for the `2.0 * sigma * sigma` denominator shape used by the
fricative module. -/
theorem gauss_val_bounds' (v mu s : ℝ) :
    0 ≤ 100.0 * Real.exp (-((v - mu) ^ 2) / (2.0 * s * s)) ∧
      100.0 * Real.exp (-((v - mu) ^ 2) / (2.0 * s * s)) ≤ 100 := by
  constructor
  · positivity
  · have hden : (0 : ℝ) ≤ 2.0 * s * s := by nlinarith [mul_self_nonneg s]
    have h1 : Real.exp (-((v - mu) ^ 2) / (2.0 * s * s)) ≤ 1 := by
      rw [Real.exp_le_one_iff, neg_div]
      exact neg_nonpos.mpr (div_nonneg (sq_nonneg _) hden)
    linarith

theorem pyMaxAux_ge_acc {α : Type} (l : List (α × ℝ)) (acc : α × ℝ) :
    acc.2 ≤ (pyMaxAux acc l).2 := by
  induction l generalizing acc with
  | nil => simp [pyMaxAux]
  | cons p t ih =>
    simp only [pyMaxAux]
    by_cases h : acc.2 < p.2
    · simp only [if_pos h]
      exact le_of_lt (lt_of_lt_of_le h (ih p))
    · simp only [if_neg h]
      exact ih acc

theorem pyMaxAux_ge_mem {α : Type} (l : List (α × ℝ)) (acc : α × ℝ) :
    ∀ p ∈ l, p.2 ≤ (pyMaxAux acc l).2 := by
  induction l generalizing acc with
  | nil => intro p hp; simp at hp
  | cons q t ih =>
    intro p hp
    rcases List.mem_cons.mp hp with h | h
    · subst h
      simp only [pyMaxAux]
      by_cases hq : acc.2 < p.2
      · simp only [if_pos hq]; exact pyMaxAux_ge_acc t p
      · simp only [if_neg hq]
        exact le_trans (not_lt.mp hq) (pyMaxAux_ge_acc t acc)
    · simp only [pyMaxAux]
      by_cases hq : acc.2 < q.2
      · simp only [if_pos hq]; exact ih q p h
      · simp only [if_neg hq]; exact ih acc p h

theorem pyMaxAux_mem {α : Type} (l : List (α × ℝ)) (acc : α × ℝ) :
    pyMaxAux acc l = acc ∨ pyMaxAux acc l ∈ l := by
  induction l generalizing acc with
  | nil => left; rfl
  | cons q t ih =>
    simp only [pyMaxAux]
    by_cases hq : acc.2 < q.2
    · simp only [if_pos hq]
      rcases ih q with h | h
      · right; rw [h]; exact List.mem_cons_self _ _
      · right; exact List.mem_cons_of_mem _ h
    · simp only [if_neg hq]
      rcases ih acc with h | h
      · left; exact h
      · right; exact List.mem_cons_of_mem _ h

/-- Python `max(d, key=d.get)` over pairs `(a, f a)` returns a label whose
value dominates every listed label's value. -/
theorem pyMax_argmax {α : Type} (f : α → ℝ) (x : α) (t : List α) :
    ∀ y ∈ x :: t, f y ≤ f (pyMax (x, f x) (t.map fun a => (a, f a))) := by
  intro y hy
  set l := t.map fun a => (a, f a) with hl
  have hshape : ∀ p ∈ l, p.2 = f p.1 := by
    intro p hp
    rw [hl] at hp
    rcases List.mem_map.mp hp with ⟨a, _, rfl⟩
    rfl
  have hres : (pyMaxAux (x, f x) l).2 = f (pyMaxAux (x, f x) l).1 := by
    rcases pyMaxAux_mem l (x, f x) with h | h
    · rw [h]
    · exact hshape _ h
  have hge : f y ≤ (pyMaxAux (x, f x) l).2 := by
    rcases List.mem_cons.mp hy with h | h
    · subst h
      exact pyMaxAux_ge_acc l (y, f y)
    · refine pyMaxAux_ge_mem l (x, f x) (y, f y) ?_
      rw [hl]
      exact List.mem_map.mpr ⟨y, h, rfl⟩
  rw [pyMax, ← hres]
  exact hge

end Lemmas

/-- A possibly-missing score that, when present, lies in [0, 100]. -/
def ScoreBounded (x : Option ℝ) : Prop := ∀ v, x = some v → 0 ≤ v ∧ v ≤ 100

theorem liquid_opt_bounds (x : Option ℝ) (mu s : ℝ) :
    0 ≤ (Liquid.gaussian_score x mu s).getD 0 ∧
      (Liquid.gaussian_score x mu s).getD 0 ≤ 100 := by
  cases x with
  | none => simp [Liquid.gaussian_score]
  | some v => simpa [Liquid.gaussian_score] using gauss_val_bounds v mu s

/-- Structure of a liquid result's softscores on the onset-found path. -/
theorem liquid_run_some (fx : Liquid.Extraction) (t : ℝ) (h : fx.onset_t = some t) :
    (Liquid.run fx).evaluation.softscores = some
      { f3 := (Liquid.gaussian_score fx.f3 Liquid.REF_F3_ONSET_HZ Liquid.REF_F3_SIGMA).getD 0
        closure_depth := (Liquid.gaussian_score fx.depth_db Liquid.REF_CLOSURE_DEPTH_DB Liquid.REF_CLOSURE_DEPTH_SIGMA).getD 0
        smoothness := (Liquid.gaussian_score fx.centroid Liquid.REF_CENTROID_HZ Liquid.REF_CENTROID_SIGMA).getD 0
        non_fricative := (Liquid.gaussian_score fx.fric_pk Liquid.REF_FRIC_RATIO_PEAK Liquid.REF_FRIC_RATIO_SIGMA).getD 0
        voicing := (Liquid.gaussian_score fx.voiced_frac Liquid.REF_VOICED_FRAC Liquid.REF_VOICED_FRAC_SIGMA).getD 0 } := by
  simp [Liquid.run, h]

/-- The weighted liquid sum before the reject cap. -/
noncomputable def liquidWeighted (fx : Liquid.Extraction) : ℝ :=
  Liquid.W_F3 * (Liquid.gaussian_score fx.f3 Liquid.REF_F3_ONSET_HZ Liquid.REF_F3_SIGMA).getD 0 +
    Liquid.W_CLOSURE * (Liquid.gaussian_score fx.depth_db Liquid.REF_CLOSURE_DEPTH_DB Liquid.REF_CLOSURE_DEPTH_SIGMA).getD 0 +
    Liquid.W_CENTROID * (Liquid.gaussian_score fx.centroid Liquid.REF_CENTROID_HZ Liquid.REF_CENTROID_SIGMA).getD 0 +
    Liquid.W_FRIC * (Liquid.gaussian_score fx.fric_pk Liquid.REF_FRIC_RATIO_PEAK Liquid.REF_FRIC_RATIO_SIGMA).getD 0 +
    Liquid.W_VOICED * (Liquid.gaussian_score fx.voiced_frac Liquid.REF_VOICED_FRAC Liquid.REF_VOICED_FRAC_SIGMA).getD 0

theorem liquidWeighted_bounds (fx : Liquid.Extraction) :
    0 ≤ liquidWeighted fx ∧ liquidWeighted fx ≤ 100 := by
  obtain ⟨a1, a2⟩ := liquid_opt_bounds fx.f3 Liquid.REF_F3_ONSET_HZ Liquid.REF_F3_SIGMA
  obtain ⟨b1, b2⟩ := liquid_opt_bounds fx.depth_db Liquid.REF_CLOSURE_DEPTH_DB Liquid.REF_CLOSURE_DEPTH_SIGMA
  obtain ⟨c1, c2⟩ := liquid_opt_bounds fx.centroid Liquid.REF_CENTROID_HZ Liquid.REF_CENTROID_SIGMA
  obtain ⟨d1, d2⟩ := liquid_opt_bounds fx.fric_pk Liquid.REF_FRIC_RATIO_PEAK Liquid.REF_FRIC_RATIO_SIGMA
  obtain ⟨e1, e2⟩ := liquid_opt_bounds fx.voiced_frac Liquid.REF_VOICED_FRAC Liquid.REF_VOICED_FRAC_SIGMA
  unfold liquidWeighted Liquid.W_F3 Liquid.W_CLOSURE Liquid.W_CENTROID Liquid.W_FRIC Liquid.W_VOICED
  constructor <;> linarith

/-- The final score of a liquid result on the onset-found path. -/
theorem liquid_run_final (fx : Liquid.Extraction) (t : ℝ) (h : fx.onset_t = some t) :
    (Liquid.run fx).evaluation.final_score =
      (if (Liquid.gate1 fx || Liquid.gate2 fx || Liquid.gate3 fx) = true
        then min (liquidWeighted fx) 35.0 else liquidWeighted fx) := by
  simp [Liquid.run, h, liquidWeighted]

/-- The reject flag/reason of a liquid result on the onset-found path. -/
theorem liquid_run_gates (fx : Liquid.Extraction) (t : ℝ) (h : fx.onset_t = some t) :
    (Liquid.run fx).evaluation.is_rejected =
        (Liquid.gate1 fx || Liquid.gate2 fx || Liquid.gate3 fx) ∧
      (Liquid.run fx).evaluation.reject_reason =
        (if Liquid.gate1 fx then "too_fricative"
         else if Liquid.gate2 fx then "too_unvoiced"
         else if Liquid.gate3 fx then "no_tongue_contact" else "") := by
  constructor <;> simp [Liquid.run, h]

theorem fric_gauss_bounds (x mu s : ℝ) :
    0 ≤ Fricative.gaussian_score x mu s ∧ Fricative.gaussian_score x mu s ≤ 100 := by
  simpa [Fricative.gaussian_score] using gauss_val_bounds' x mu s

/-- The fricative composite for any candidate is always present (duration is
always measured) and lies in [0, 100]; `soft_for` is its value. -/
theorem fric_soft_eq (c h : Option ℝ) (d : ℝ) (lab : Fricative.Cat) :
    Fricative.final_score (Fricative.score_spectral c h lab)
        (Fricative.score_duration (some d) lab) =
      some (Fricative.soft_for c h d lab) ∧
    0 ≤ Fricative.soft_for c h d lab ∧ Fricative.soft_for c h d lab ≤ 100 := by
  obtain ⟨g1, g2⟩ := fric_gauss_bounds d (Fricative.REF_DURATION_MS lab) Fricative.REF_DUR_SIGMA
  rcases c with _ | cv <;> rcases h with _ | hv
  · simp [Fricative.soft_for, Fricative.score_spectral, Fricative.score_duration,
      Fricative.final_score]
    exact ⟨g1, g2⟩
  · simp [Fricative.soft_for, Fricative.score_spectral, Fricative.score_duration,
      Fricative.final_score]
    exact ⟨g1, g2⟩
  · simp [Fricative.soft_for, Fricative.score_spectral, Fricative.score_duration,
      Fricative.final_score]
    exact ⟨g1, g2⟩
  · obtain ⟨p1, p2⟩ := fric_gauss_bounds cv (Fricative.REF_CENTROID_HZ lab) Fricative.REF_CENTROID_SIGMA
    obtain ⟨q1, q2⟩ := fric_gauss_bounds hv (Fricative.REF_HF_CONTRAST_DB lab) Fricative.REF_HF_CONTRAST_DB_SIGMA
    simp only [Fricative.soft_for, Fricative.score_spectral, Fricative.score_duration,
      Fricative.final_score, Option.map_some', Option.getD_some,
      Fricative.SPECTRAL_WEIGHT, Fricative.DURATION_WEIGHT]
    refine ⟨by trivial, ?_, ?_⟩ <;> linarith

theorem fric_run_eval (target : Fricative.Cat) (c h : Option ℝ) (fs fe off : ℝ) :
    (Fricative.run target c h fs fe off).evaluation.softscores =
        Fricative.soft_for c h ((fe - fs) * 1000.0) ∧
      (Fricative.run target c h fs fe off).evaluation.final_score =
        Fricative.final_score (Fricative.score_spectral c h target)
          (Fricative.score_duration (some ((fe - fs) * 1000.0)) target) ∧
      (Fricative.run target c h fs fe off).evaluation.detected_fricative =
        pyMax (Fricative.Cat.s, Fricative.soft_for c h ((fe - fs) * 1000.0) .s)
          [(Fricative.Cat.ss, Fricative.soft_for c h ((fe - fs) * 1000.0) .ss),
           (Fricative.Cat.h, Fricative.soft_for c h ((fe - fs) * 1000.0) .h)] := by
  refine ⟨?_, ?_, ?_⟩ <;> simp [Fricative.run]

theorem aff_scores_bounds (vot centroid hf : Option ℝ) (d : ℝ) (lab : Affricate.Cat) :
    0 ≤ Affricate.scores_for vot centroid hf d lab ∧
      Affricate.scores_for vot centroid hf d lab ≤ 100 := by
  rcases vot with _ | v <;> rcases centroid with _ | c <;> rcases hf with _ | h <;>
    simp only [Affricate.scores_for, Affricate.gaussian_score, Affricate.candidate_score,
      Option.map_none', Option.map_some'] <;> try norm_num
  obtain ⟨a1, a2⟩ := gauss_val_bounds v (Affricate.REF_VOT_MS lab) Affricate.REF_VOT_SIGMA
  obtain ⟨b1, b2⟩ := gauss_val_bounds c (Affricate.REF_CENTROID_HZ lab) Affricate.REF_CENTROID_SIGMA
  obtain ⟨c1, c2⟩ := gauss_val_bounds h (Affricate.REF_HF_CONTRAST_DB lab) Affricate.REF_HF_CONTRAST_SIGMA
  obtain ⟨d1, d2⟩ := gauss_val_bounds d (Affricate.REF_FRIC_DUR_MS lab) Affricate.REF_FRIC_DUR_SIGMA
  unfold Affricate.W_VOT Affricate.W_SPEC Affricate.W_FRIC_DUR
  constructor <;> linarith

theorem aff_run_eval (target : Affricate.Cat) (t0 t1 : ℝ) (vot0 centroid hf : Option ℝ) :
    (Affricate.run target t0 t1 vot0 centroid hf).evaluation.softscores =
        Affricate.scores_for (vot0.map fun v => min v Affricate.VOT_CAP_MS) centroid hf
          ((t1 - t0) * 1000.0) ∧
      (Affricate.run target t0 t1 vot0 centroid hf).evaluation.final_score =
        Affricate.scores_for (vot0.map fun v => min v Affricate.VOT_CAP_MS) centroid hf
          ((t1 - t0) * 1000.0) target ∧
      (Affricate.run target t0 t1 vot0 centroid hf).evaluation.detected_affricate =
        pyMax (Affricate.Cat.fortis,
            Affricate.scores_for (vot0.map fun v => min v Affricate.VOT_CAP_MS) centroid hf
              ((t1 - t0) * 1000.0) .fortis)
          [(Affricate.Cat.lenis,
            Affricate.scores_for (vot0.map fun v => min v Affricate.VOT_CAP_MS) centroid hf
              ((t1 - t0) * 1000.0) .lenis),
           (Affricate.Cat.aspirated,
            Affricate.scores_for (vot0.map fun v => min v Affricate.VOT_CAP_MS) centroid hf
              ((t1 - t0) * 1000.0) .aspirated)] := by
  refine ⟨?_, ?_, ?_⟩ <;> simp [Affricate.run]

/-- Lower bound of the `max(0.0, min(cap, s))` clamp pattern. -/
theorem clamp_lb (c s : ℝ) : (0 : ℝ) ≤ max 0.0 (min c s) :=
  le_max_of_le_left (by norm_num)

/-- Upper bound of the `max(0.0, min(cap, s))` clamp pattern for caps below
100. -/
theorem clamp_ub (c s : ℝ) (hc : c ≤ 100) : max 0.0 (min c s) ≤ 100 :=
  max_le (by norm_num) (le_trans (min_le_left _ _) hc)

theorem gds_bounds (v c s : ℝ) :
    0 ≤ Stops.gaussian_distance_score v c s ∧ Stops.gaussian_distance_score v c s ≤ 100 := by
  unfold Stops.gaussian_distance_score
  exact ⟨clamp_lb _ _, clamp_ub _ _ (by norm_num)⟩

theorem lds_bounds (v c tol : ℝ) :
    0 ≤ Stops.linear_distance_score v c tol ∧ Stops.linear_distance_score v c tol ≤ 100 := by
  unfold Stops.linear_distance_score
  exact ⟨clamp_lb _ _, clamp_ub _ _ (by norm_num)⟩

theorem place_score_bounded (f2 : Option ℝ) (tp : String) :
    ScoreBounded (Stops.compute_place_score f2 tp) := by
  intro v hv
  rcases f2 with _ | x
  · simp [Stops.compute_place_score] at hv
  · rcases hl : Stops.PLACE_F2_CENTERS_HZ.lookup tp with _ | c
    · simp [Stops.compute_place_score, hl] at hv
    · simp only [Stops.compute_place_score, hl, Option.some.injEq] at hv
      subst hv
      exact gds_bounds x c Stops.PLACE_SIGMA_HZ

theorem vot_score_bounded (vot : Option ℝ) (tp : String) :
    ScoreBounded (Stops.compute_vot_score vot tp) := by
  intro v hv
  rcases vot with _ | x
  · simp [Stops.compute_vot_score] at hv
  · rcases hr : Stops.VOT_RANGES_MS tp with _ | r
    · simp [Stops.compute_vot_score, hr] at hv
    · obtain ⟨lo, hi, center⟩ := r
      by_cases hin : lo ≤ x ∧ x ≤ hi
      · simp only [Stops.compute_vot_score, hr, hin, and_self, if_true,
          Option.some.injEq] at hv
        subst hv
        exact lds_bounds _ _ _
      · simp only [Stops.compute_vot_score, hr, hin, if_false,
          Option.some.injEq] at hv
        subst hv
        exact ⟨clamp_lb _ _, clamp_ub _ _ (by norm_num)⟩

theorem f0_score_bounded (z : Option ℝ) (tp : String) :
    ScoreBounded (Stops.compute_f0_score z tp) := by
  intro v hv
  rcases z with _ | x
  · simp [Stops.compute_f0_score] at hv
  · rcases ht : Stops.F0Z_TARGETS tp with _ | r
    · simp [Stops.compute_f0_score, ht] at hv
    · obtain ⟨center, tol⟩ := r
      simp only [Stops.compute_f0_score, ht, Option.some.injEq] at hv
      subst hv
      exact gds_bounds x center Stops.F0Z_SIGMA

theorem phonation_score_bounded (a b vm : Option ℝ)
    (ha : ScoreBounded a) (hb : ScoreBounded b) :
    ScoreBounded (Stops.compute_phonation_score a b vm) := by
  intro v hv
  rcases a with _ | x <;> rcases b with _ | y
  · simp [Stops.compute_phonation_score] at hv
  · simp only [Stops.compute_phonation_score, Option.some.injEq] at hv
    subst hv; exact hb y rfl
  · simp only [Stops.compute_phonation_score, Option.some.injEq] at hv
    subst hv; exact ha x rfl
  · obtain ⟨hx1, hx2⟩ := ha x rfl
    obtain ⟨hy1, hy2⟩ := hb y rfl
    rcases hd : Stops.distance_to_nearest_boundary vm with _ | d
    · simp only [Stops.compute_phonation_score, hd, Option.some.injEq] at hv
      subst hv; constructor <;> nlinarith
    · by_cases hdn : d ≤ Stops.VOT_BOUNDARY_NEAR_MS
      · simp only [Stops.compute_phonation_score, hd, hdn, if_true,
          Option.some.injEq] at hv
        subst hv; constructor <;> nlinarith
      · simp only [Stops.compute_phonation_score, hd, hdn, if_false,
          Option.some.injEq] at hv
        subst hv; constructor <;> nlinarith

theorem final_score_bounded (a b : Option ℝ)
    (ha : ScoreBounded a) (hb : ScoreBounded b) :
    ScoreBounded (Stops.compute_final_score a b) := by
  intro v hv
  rcases a with _ | x <;> rcases b with _ | y
  · simp [Stops.compute_final_score] at hv
  · simp only [Stops.compute_final_score, Option.some.injEq] at hv
    subst hv; exact hb y rfl
  · simp only [Stops.compute_final_score, Option.some.injEq] at hv
    subst hv; exact ha x rfl
  · obtain ⟨hx1, hx2⟩ := ha x rfl
    obtain ⟨hy1, hy2⟩ := hb y rfl
    simp only [Stops.compute_final_score, Option.some.injEq,
      Stops.PLACE_WEIGHT, Stops.PHONATION_WEIGHT] at hv
    subst hv; constructor <;> nlinarith

theorem nasal_opt_bounds (x : Option ℝ) (mu s : ℝ) :
    0 ≤ (Nasal.gaussian_score x mu s).getD 0 ∧
      (Nasal.gaussian_score x mu s).getD 0 ≤ 100 := by
  cases x with
  | none => simp [Nasal.gaussian_score]
  | some v => simpa [Nasal.gaussian_score] using gauss_val_bounds v mu s

theorem nasality_bounds (lr ce : Option ℝ) :
    0 ≤ (Nasal.score_nasality lr ce).getD 0 ∧
      (Nasal.score_nasality lr ce).getD 0 ≤ 100 := by
  rcases lr with _ | x <;> rcases ce with _ | y <;>
    simp only [Nasal.score_nasality, Nasal.gaussian_score, Option.map_none',
      Option.map_some', Option.getD_some, Option.getD_none] <;> try norm_num
  obtain ⟨a1, a2⟩ := gauss_val_bounds x Nasal.REF_LOW_RAT Nasal.REF_LOW_RAT_SIGMA
  obtain ⟨b1, b2⟩ := gauss_val_bounds y Nasal.REF_CENTROID_HZ Nasal.REF_CENTROID_SIGMA
  constructor <;> linarith

theorem nasal_lookup_bounds (a b : ℝ) (ha1 : 0 ≤ a) (ha2 : a ≤ 100)
    (hb1 : 0 ≤ b) (hb2 : b ≤ 100) (tp : String) :
    0 ≤ ((([("labial", a), ("alveolar", b)] : List (String × ℝ)).lookup tp).getD 0) ∧
      ((([("labial", a), ("alveolar", b)] : List (String × ℝ)).lookup tp).getD 0) ≤ 100 := by
  by_cases h1 : tp = "labial"
  · simp [List.lookup, h1, beq_iff_eq]; exact ⟨ha1, ha2⟩
  · by_cases h2 : tp = "alveolar"
    · simp [List.lookup, h1, h2, beq_iff_eq]; exact ⟨hb1, hb2⟩
    · simp only [List.lookup]
      rw [show (tp == "labial") = false from beq_eq_false_iff_ne.mpr h1,
        show (tp == "alveolar") = false from beq_eq_false_iff_ne.mpr h2]
      norm_num

theorem nasal_run_bounds (tp : String) (ot lr ce f2 : Option ℝ) :
    (∀ p ∈ (Nasal.run tp ot lr ce f2).evaluation.softscores, 0 ≤ p.2 ∧ p.2 ≤ 100) ∧
      0 ≤ (Nasal.run tp ot lr ce f2).evaluation.final_score ∧
      (Nasal.run tp ot lr ce f2).evaluation.final_score ≤ 100 := by
  obtain ⟨la1, la2⟩ := nasal_opt_bounds f2 (Nasal.REF_F2_ONSET_HZ "labial") Nasal.REF_F2_SIGMA
  obtain ⟨al1, al2⟩ := nasal_opt_bounds f2 (Nasal.REF_F2_ONSET_HZ "alveolar") Nasal.REF_F2_SIGMA
  obtain ⟨n1, n2⟩ := nasality_bounds lr ce
  cases ot with
  | none =>
    constructor
    · intro p hp; simp [Nasal.run] at hp
    · norm_num [Nasal.run]
  | some t =>
    obtain ⟨lt1, lt2⟩ := nasal_lookup_bounds _ _ la1 la2 al1 al2 tp
    constructor
    · intro p hp
      simp only [Nasal.run, List.mem_cons, List.not_mem_nil, or_false] at hp
      rcases hp with h | h | h <;> subst h
      · exact ⟨la1, la2⟩
      · exact ⟨al1, al2⟩
      · exact ⟨n1, n2⟩
    · have hfinal : (Nasal.run tp (some t) lr ce f2).evaluation.final_score =
          Nasal.W_PLACE *
              ((([("labial", (Nasal.gaussian_score f2 (Nasal.REF_F2_ONSET_HZ "labial") Nasal.REF_F2_SIGMA).getD 0),
                  ("alveolar", (Nasal.gaussian_score f2 (Nasal.REF_F2_ONSET_HZ "alveolar") Nasal.REF_F2_SIGMA).getD 0)] :
                  List (String × ℝ)).lookup tp).getD 0) +
            Nasal.W_NASALITY * (Nasal.score_nasality lr ce).getD 0 := by
        simp [Nasal.run]
      rw [hfinal]
      unfold Nasal.W_PLACE Nasal.W_NASALITY
      constructor <;> linarith

theorem liquid_run_bounds (fx : Liquid.Extraction) :
    (∀ ss, (Liquid.run fx).evaluation.softscores = some ss →
      (0 ≤ ss.f3 ∧ ss.f3 ≤ 100) ∧ (0 ≤ ss.closure_depth ∧ ss.closure_depth ≤ 100) ∧
      (0 ≤ ss.smoothness ∧ ss.smoothness ≤ 100) ∧
      (0 ≤ ss.non_fricative ∧ ss.non_fricative ≤ 100) ∧
      (0 ≤ ss.voicing ∧ ss.voicing ≤ 100)) ∧
    0 ≤ (Liquid.run fx).evaluation.final_score ∧
    (Liquid.run fx).evaluation.final_score ≤ 100 := by
  cases h : fx.onset_t with
  | none =>
    refine ⟨?_, ?_, ?_⟩
    · intro ss hss
      simp [Liquid.run, h] at hss
    · norm_num [Liquid.run, h]
    · norm_num [Liquid.run, h]
  | some t =>
    obtain ⟨w1, w2⟩ := liquidWeighted_bounds fx
    refine ⟨?_, ?_, ?_⟩
    · intro ss hss
      rw [liquid_run_some fx t h] at hss
      obtain rfl := Option.some.inj hss
      exact ⟨liquid_opt_bounds _ _ _, liquid_opt_bounds _ _ _, liquid_opt_bounds _ _ _,
        liquid_opt_bounds _ _ _, liquid_opt_bounds _ _ _⟩
    · rw [liquid_run_final fx t h]
      by_cases hr : (Liquid.gate1 fx || Liquid.gate2 fx || Liquid.gate3 fx) = true
      · rw [if_pos hr]
        exact le_min w1 (by norm_num)
      · rw [if_neg hr]
        exact w1
    · rw [liquid_run_final fx t h]
      by_cases hr : (Liquid.gate1 fx || Liquid.gate2 fx || Liquid.gate3 fx) = true
      · rw [if_pos hr]
        exact le_trans (min_le_right _ _) (by norm_num)
      · rw [if_neg hr]
        exact w2

theorem stop_run_eval (tp tph : String) (vot f2 f0 : Option ℝ) (cal : Option (ℝ × ℝ)) :
    (Stops.run tp tph vot f2 f0 cal).evaluation.final_score =
        Stops.compute_final_score (Stops.compute_place_score f2 tp)
          (Stops.compute_phonation_score (Stops.compute_vot_score vot tph)
            (Stops.compute_f0_score (Stops.compute_f0_z f0 cal) tph) vot) ∧
      (Stops.run tp tph vot f2 f0 cal).evaluation.place_softscores =
        (Stops.compute_place_softscores_and_confidence f2).2.2 := by
  constructor <;> simp [Stops.run, Stops.evaluate_stop]

theorem place_softscores_bounds (f2 : Option ℝ) :
    ∀ p ∈ (Stops.compute_place_softscores_and_confidence f2).2.2,
      0 ≤ p.2 ∧ p.2 ≤ 100 := by
  intro p hp
  cases f2 with
  | none => simp [Stops.compute_place_softscores_and_confidence] at hp
  | some v =>
    simp only [Stops.compute_place_softscores_and_confidence, List.mem_map] at hp
    obtain ⟨q, _, rfl⟩ := hp
    exact gds_bounds v q.2 Stops.PLACE_SIGMA_HZ

/-- C1 counterexample: `analyze_stop` on 가 with no voicing found, no F2, no
F0 and no calibration returns an `AnalysisResult` whose
`evaluation.final_score` is `None`, contradicting the claim that
`final_score` is always a number in [0, 100]. -/
theorem claim_C1_counterexample :
    (Stops.analyze_stop "가" none none none none).map
        (fun r => r.evaluation.final_score) = Except.ok none := by
  simp [Stops.analyze_stop, Stops.STOP_SET, Stops.STOP_META, Stops.run,
    Stops.evaluate_stop, Stops.compute_f0_z, Stops.compute_place_score,
    Stops.compute_vot_score, Stops.compute_f0_score,
    Stops.compute_phonation_score, Stops.compute_final_score, Except.map]

/-- C1 (amended): for every analyzer call, every value stored under
`evaluation.softscores` (and the stop analyzer's `place_softscores`) lies in
[0, 100], and `evaluation.final_score` lies in [0, 100] whenever it is a
number; the stop analyzer's `final_score` is `None` when neither the place
nor the phonation subscore could be computed, so "never None" only holds for
the other four analyzers. -/
theorem claim_C1_amended :
    (∀ fx : Liquid.Extraction,
      (∀ ss, (Liquid.run fx).evaluation.softscores = some ss →
        (0 ≤ ss.f3 ∧ ss.f3 ≤ 100) ∧ (0 ≤ ss.closure_depth ∧ ss.closure_depth ≤ 100) ∧
        (0 ≤ ss.smoothness ∧ ss.smoothness ≤ 100) ∧
        (0 ≤ ss.non_fricative ∧ ss.non_fricative ≤ 100) ∧
        (0 ≤ ss.voicing ∧ ss.voicing ≤ 100)) ∧
      0 ≤ (Liquid.run fx).evaluation.final_score ∧
      (Liquid.run fx).evaluation.final_score ≤ 100) ∧
    (∀ (tp : String) (ot lr ce f2 : Option ℝ),
      (∀ p ∈ (Nasal.run tp ot lr ce f2).evaluation.softscores, 0 ≤ p.2 ∧ p.2 ≤ 100) ∧
      0 ≤ (Nasal.run tp ot lr ce f2).evaluation.final_score ∧
      (Nasal.run tp ot lr ce f2).evaluation.final_score ≤ 100) ∧
    (∀ (t : Fricative.Cat) (c h : Option ℝ) (fs fe off : ℝ),
      (∀ lab, 0 ≤ (Fricative.run t c h fs fe off).evaluation.softscores lab ∧
        (Fricative.run t c h fs fe off).evaluation.softscores lab ≤ 100) ∧
      ScoreBounded (Fricative.run t c h fs fe off).evaluation.final_score) ∧
    (∀ (t : Affricate.Cat) (t0 t1 : ℝ) (vot c h : Option ℝ),
      (∀ lab, 0 ≤ (Affricate.run t t0 t1 vot c h).evaluation.softscores lab ∧
        (Affricate.run t t0 t1 vot c h).evaluation.softscores lab ≤ 100) ∧
      0 ≤ (Affricate.run t t0 t1 vot c h).evaluation.final_score ∧
      (Affricate.run t t0 t1 vot c h).evaluation.final_score ≤ 100) ∧
    (∀ (tp tph : String) (vot f2 f0 : Option ℝ) (cal : Option (ℝ × ℝ)),
      (∀ p ∈ (Stops.run tp tph vot f2 f0 cal).evaluation.place_softscores,
        0 ≤ p.2 ∧ p.2 ≤ 100) ∧
      ScoreBounded (Stops.run tp tph vot f2 f0 cal).evaluation.final_score) := by
  refine ⟨liquid_run_bounds, nasal_run_bounds, ?_, ?_, ?_⟩
  · intro t c h fs fe off
    constructor
    · intro lab
      rw [(fric_run_eval t c h fs fe off).1]
      exact (fric_soft_eq c h ((fe - fs) * 1000.0) lab).2
    · intro v hv
      rw [(fric_run_eval t c h fs fe off).2.1,
        (fric_soft_eq c h ((fe - fs) * 1000.0) t).1] at hv
      obtain rfl := Option.some.inj hv
      exact (fric_soft_eq c h ((fe - fs) * 1000.0) t).2
  · intro t t0 t1 vot c h
    refine ⟨?_, ?_, ?_⟩
    · intro lab
      rw [(aff_run_eval t t0 t1 vot c h).1]
      exact aff_scores_bounds _ _ _ _ lab
    · rw [(aff_run_eval t t0 t1 vot c h).2.1]
      exact (aff_scores_bounds _ _ _ _ t).1
    · rw [(aff_run_eval t t0 t1 vot c h).2.1]
      exact (aff_scores_bounds _ _ _ _ t).2
  · intro tp tph vot f2 f0 cal
    constructor
    · rw [(stop_run_eval tp tph vot f2 f0 cal).2]
      exact place_softscores_bounds f2
    · rw [(stop_run_eval tp tph vot f2 f0 cal).1]
      exact final_score_bounded _ _ (place_score_bounded f2 tp)
        (phonation_score_bounded _ _ vot (vot_score_bounded vot tph)
          (f0_score_bounded _ tph))

/-- C1 witness: the amended range invariant evaluated at concrete inputs
(a fully-measured liquid recording; a fricative with centroid 4800 Hz and
HF contrast 15 dB over a 100 ms region). -/
theorem claim_C1_witness :
    0 ≤ (Liquid.run ⟨some 0.1, some 2500, some 10, some 900, some 1.2, some 0.7⟩).evaluation.final_score ∧
      (Liquid.run ⟨some 0.1, some 2500, some 10, some 900, some 1.2, some 0.7⟩).evaluation.final_score ≤ 100 ∧
      0 ≤ Fricative.soft_for (some 4800) (some 15) ((0.1 - 0) * 1000.0) Fricative.Cat.s ∧
      Fricative.soft_for (some 4800) (some 15) ((0.1 - 0) * 1000.0) Fricative.Cat.s ≤ 100 := by
  have hL := claim_C1_amended.1 ⟨some 0.1, some 2500, some 10, some 900, some 1.2, some 0.7⟩
  have hF := (claim_C1_amended.2.2.1 Fricative.Cat.s (some 4800) (some 15) 0 0.1 0).2
  have heq : (Fricative.run Fricative.Cat.s (some 4800) (some 15) 0 0.1 0).evaluation.final_score
      = some (Fricative.soft_for (some 4800) (some 15) ((0.1 - 0) * 1000.0) Fricative.Cat.s) := by
    rw [(fric_run_eval Fricative.Cat.s (some 4800) (some 15) 0 0.1 0).2.1]
    exact (fric_soft_eq (some 4800) (some 15) ((0.1 - 0) * 1000.0) Fricative.Cat.s).1
  obtain ⟨v1, v2⟩ := hF _ heq
  exact ⟨hL.2.1, hL.2.2, v1, v2⟩

/-- C2: in `analyze_liquid` (onset found), the reject gates are evaluated in
the fixed priority order frication, voicing, closure — the recorded
`reject_reason` is that of the first gate that fires — and whenever any gate
fires the result is flagged rejected with `final_score` capped at 35,
regardless of the weighted value.  The gate predicates are exactly the
source's `is not None and` threshold tests. -/
theorem claim_C2 (fx : Liquid.Extraction) (t : ℝ) (h : fx.onset_t = some t) :
    (Liquid.gate1 fx = true ↔ ∃ v, fx.fric_pk = some v ∧ 2.6 ≤ v) ∧
    (Liquid.gate2 fx = true ↔ ∃ v, fx.voiced_frac = some v ∧ v ≤ 0.35) ∧
    (Liquid.gate3 fx = true ↔ ∃ v, fx.depth_db = some v ∧ v ≤ 3.5) ∧
    (Liquid.gate1 fx = true →
      (Liquid.run fx).evaluation.reject_reason = "too_fricative") ∧
    (Liquid.gate1 fx = false → Liquid.gate2 fx = true →
      (Liquid.run fx).evaluation.reject_reason = "too_unvoiced") ∧
    (Liquid.gate1 fx = false → Liquid.gate2 fx = false → Liquid.gate3 fx = true →
      (Liquid.run fx).evaluation.reject_reason = "no_tongue_contact") ∧
    ((Liquid.gate1 fx = true ∨ Liquid.gate2 fx = true ∨ Liquid.gate3 fx = true) →
      (Liquid.run fx).evaluation.is_rejected = true ∧
      (Liquid.run fx).evaluation.final_score ≤ 35) := by
  obtain ⟨hrej, hreason⟩ := liquid_run_gates fx t h
  refine ⟨?_, ?_, ?_, ?_, ?_, ?_, ?_⟩
  · cases hc : fx.fric_pk <;> simp [Liquid.gate1, hc]
  · cases hc : fx.voiced_frac <;> simp [Liquid.gate2, hc]
  · cases hc : fx.depth_db <;> simp [Liquid.gate3, hc]
  · intro h1
    rw [hreason, if_pos h1]
  · intro h1 h2
    rw [hreason, if_neg (by simp [h1]), if_pos h2]
  · intro h1 h2 h3
    rw [hreason, if_neg (by simp [h1]), if_neg (by simp [h2]), if_pos h3]
  · intro hany
    have hor : (Liquid.gate1 fx || Liquid.gate2 fx || Liquid.gate3 fx) = true := by
      rcases hany with h1 | h2 | h3
      · simp [h1]
      · simp [h2]
      · simp [h3]
    constructor
    · rw [hrej, hor]
    · rw [liquid_run_final fx t h, if_pos hor]
      exact le_trans (min_le_right _ _) (by norm_num)

/-- C2 witness: a liquid recording with frication-ratio peak 3.0 (≥ 2.6) is
rejected as too fricative with a final score of at most 35. -/
theorem claim_C2_witness :
    (Liquid.run ⟨some 0.1, none, none, none, some 3, none⟩).evaluation.is_rejected = true ∧
      (Liquid.run ⟨some 0.1, none, none, none, some 3, none⟩).evaluation.final_score ≤ 35 ∧
      (Liquid.run ⟨some 0.1, none, none, none, some 3, none⟩).evaluation.reject_reason =
        "too_fricative" := by
  have hc := claim_C2 ⟨some 0.1, none, none, none, some 3, none⟩ 0.1 rfl
  have hg1 : Liquid.gate1 ⟨some 0.1, none, none, none, some 3, none⟩ = true :=
    hc.1.mpr ⟨3, rfl, by norm_num⟩
  obtain ⟨hcap1, hcap2⟩ := hc.2.2.2.2.2.2 (Or.inl hg1)
  exact ⟨hcap1, hcap2, hc.2.2.2.1 hg1⟩

/-- C3: in both the fricative and the affricate analyzer, the detected
category maximises the softscore map over the closed candidate set, and the
returned `final_score` is the softscore of the *target* category (the
category the caller asked for), not the maximum. -/
theorem claim_C3 :
    (∀ (target : Fricative.Cat) (c h : Option ℝ) (fs fe off : ℝ),
      (∀ lab, (Fricative.run target c h fs fe off).evaluation.softscores lab ≤
        (Fricative.run target c h fs fe off).evaluation.softscores
          (Fricative.run target c h fs fe off).evaluation.detected_fricative) ∧
      (Fricative.run target c h fs fe off).evaluation.final_score =
        some ((Fricative.run target c h fs fe off).evaluation.softscores target)) ∧
    (∀ (target : Affricate.Cat) (t0 t1 : ℝ) (vot c h : Option ℝ),
      (∀ lab, (Affricate.run target t0 t1 vot c h).evaluation.softscores lab ≤
        (Affricate.run target t0 t1 vot c h).evaluation.softscores
          (Affricate.run target t0 t1 vot c h).evaluation.detected_affricate) ∧
      (Affricate.run target t0 t1 vot c h).evaluation.final_score =
        (Affricate.run target t0 t1 vot c h).evaluation.softscores target) := by
  constructor
  · intro target c h fs fe off
    obtain ⟨hsoft, hfinal, hdet⟩ := fric_run_eval target c h fs fe off
    constructor
    · intro lab
      rw [hsoft, hdet]
      have hmem : lab ∈ Fricative.Cat.s :: [Fricative.Cat.ss, Fricative.Cat.h] := by
        cases lab <;> simp
      exact pyMax_argmax (Fricative.soft_for c h ((fe - fs) * 1000.0))
        Fricative.Cat.s [Fricative.Cat.ss, Fricative.Cat.h] lab hmem
    · rw [hfinal, hsoft]
      exact (fric_soft_eq c h ((fe - fs) * 1000.0) target).1
  · intro target t0 t1 vot c h
    obtain ⟨hsoft, hfinal, hdet⟩ := aff_run_eval target t0 t1 vot c h
    constructor
    · intro lab
      rw [hsoft, hdet]
      have hmem : lab ∈ Affricate.Cat.fortis ::
          [Affricate.Cat.lenis, Affricate.Cat.aspirated] := by
        cases lab <;> simp
      exact pyMax_argmax
        (Affricate.scores_for (vot.map fun v => min v Affricate.VOT_CAP_MS) c h
          ((t1 - t0) * 1000.0))
        Affricate.Cat.fortis [Affricate.Cat.lenis, Affricate.Cat.aspirated] lab hmem
    · rw [hfinal, hsoft]

/-- Spec-worded candidate composite for the affricate analyzer: per the
spec, a candidate whose required feature score is missing is "cannot compute
this candidate's score", i.e. `None`/excluded rather than a number.  This
definition follows the spec's words, for comparison against the source's
`candidate_score`. -/
noncomputable def affricate_candidate_score_specWorded (s_vot s_spec s_dur : Option ℝ) :
    Option ℝ :=
  match s_vot, s_spec, s_dur with
  | some a, some b, some c =>
    some (Affricate.W_VOT * a + Affricate.W_SPEC * b + Affricate.W_FRIC_DUR * c)
  | _, _, _ => none

/-- C4 counterexample: with VOT missing (per-feature Gaussian score `None`)
but centroid and HF contrast measured, the affricate analyzer stores the
number 0.0 as every candidate's composite softscore and as `final_score`,
where the claim (and the spec-worded composite) require exclusion/`None`. -/
theorem claim_C4_counterexample :
    Affricate.gaussian_score none (Affricate.REF_VOT_MS .fortis) Affricate.REF_VOT_SIGMA
        = none ∧
      Affricate.candidate_score none (some 50) (some 60) = 0 ∧
      affricate_candidate_score_specWorded none (some 50) (some 60) = none ∧
      (Affricate.run .fortis 0 0.1 none (some 6200) (some 22)).evaluation.softscores
        .fortis = 0 ∧
      (Affricate.run .fortis 0 0.1 none (some 6200) (some 22)).evaluation.final_score = 0 := by
  refine ⟨rfl, by norm_num [Affricate.candidate_score], rfl, ?_, ?_⟩
  · rw [(aff_run_eval .fortis 0 0.1 none (some 6200) (some 22)).1]
    norm_num [Affricate.scores_for, Affricate.gaussian_score, Affricate.candidate_score]
  · rw [(aff_run_eval .fortis 0 0.1 none (some 6200) (some 22)).2.1]
    norm_num [Affricate.scores_for, Affricate.gaussian_score, Affricate.candidate_score]

/-- C4 (amended): a missing feature yields a `None` per-feature Gaussian
score in every analyzer; the stop and fricative analyzers exclude missing
components from their composites (`None` only when nothing is measurable,
a lone present component passes through unweighted); the affricate analyzer
instead leaves the number 0.0 as a candidate's composite whenever any
required feature score is missing; the liquid and nasal analyzers substitute
0 for missing per-feature scores inside their all-or-nothing weighted sums. -/
theorem claim_C4_amended :
    (∀ mu s, Liquid.gaussian_score none mu s = none) ∧
    (∀ mu s, Nasal.gaussian_score none mu s = none) ∧
    (∀ mu s, Affricate.gaussian_score none mu s = none) ∧
    (∀ t hf, Fricative.score_spectral none hf t = none) ∧
    (∀ t c, Fricative.score_spectral c none t = none) ∧
    (∀ t, Fricative.score_duration none t = none) ∧
    (∀ tp, Stops.compute_place_score none tp = none) ∧
    (∀ tp, Stops.compute_vot_score none tp = none) ∧
    (∀ tp, Stops.compute_f0_score none tp = none) ∧
    (∀ x vm, Stops.compute_phonation_score (some x) none vm = some x) ∧
    (∀ x vm, Stops.compute_phonation_score none (some x) vm = some x) ∧
    (∀ vm, Stops.compute_phonation_score none none vm = none) ∧
    (∀ x, Stops.compute_final_score (some x) none = some x) ∧
    (∀ x, Stops.compute_final_score none (some x) = some x) ∧
    Stops.compute_final_score none none = none ∧
    (∀ x, Fricative.final_score (some x) none = some x) ∧
    (∀ x, Fricative.final_score none (some x) = some x) ∧
    Fricative.final_score none none = none ∧
    (∀ s_spec s_dur, Affricate.candidate_score none s_spec s_dur = 0) ∧
    (∀ s_vot s_dur, Affricate.candidate_score s_vot none s_dur = 0) ∧
    (∀ s_vot s_spec, Affricate.candidate_score s_vot s_spec none = 0) ∧
    (∀ (fx : Liquid.Extraction) (t : ℝ), fx.onset_t = some t → fx.f3 = none →
      ((Liquid.run fx).evaluation.softscores.map Liquid.Softscores.f3) = some 0) ∧
    (∀ (tp : String) (t : ℝ) (lr ce : Option ℝ),
      (Nasal.run tp (some t) lr ce none).evaluation.softscores =
        [("place_labial", 0), ("place_alveolar", 0),
         ("nasality", (Nasal.score_nasality lr ce).getD 0)]) ∧
    (∀ (tp : String) (t : ℝ) (f2 : Option ℝ),
      (Nasal.run tp (some t) none none f2).evaluation.softscores =
        [("place_labial",
            (Nasal.gaussian_score f2 (Nasal.REF_F2_ONSET_HZ "labial") Nasal.REF_F2_SIGMA).getD 0),
         ("place_alveolar",
            (Nasal.gaussian_score f2 (Nasal.REF_F2_ONSET_HZ "alveolar") Nasal.REF_F2_SIGMA).getD 0),
         ("nasality", 0)]) := by
  refine ⟨fun _ _ => rfl, fun _ _ => rfl, fun _ _ => rfl,
    ?_, ?_, fun _ => rfl, fun _ => rfl, fun _ => rfl, fun _ => rfl,
    fun _ _ => rfl, fun _ _ => rfl, fun _ => rfl,
    fun _ => rfl, fun _ => rfl, rfl,
    fun _ => rfl, fun _ => rfl, rfl,
    ?_, ?_, ?_, ?_, ?_, ?_⟩
  · intro t hf
    cases hf <;> rfl
  · intro t c
    cases c <;> rfl
  · intro s_spec s_dur
    cases s_spec <;> cases s_dur <;> norm_num [Affricate.candidate_score]
  · intro s_vot s_dur
    cases s_vot <;> cases s_dur <;> norm_num [Affricate.candidate_score]
  · intro s_vot s_spec
    cases s_vot <;> cases s_spec <;> norm_num [Affricate.candidate_score]
  · intro fx t h h3
    rw [liquid_run_some fx t h, h3]
    simp [Liquid.gaussian_score]
  · intro tp t lr ce
    have e1 : (("labial" : String) == "labial") = true := rfl
    have e2 : (("alveolar" : String) == "labial") = false := rfl
    have e3 : (("alveolar" : String) == "alveolar") = true := rfl
    simp [Nasal.run, Nasal.gaussian_score, List.lookup, e1, e2, e3]
  · intro tp t f2
    have e1 : (("labial" : String) == "labial") = true := rfl
    have e2 : (("alveolar" : String) == "labial") = false := rfl
    have e3 : (("alveolar" : String) == "alveolar") = true := rfl
    simp [Nasal.run, Nasal.score_nasality, Nasal.gaussian_score, List.lookup, e1, e2, e3]

/-- C4 witness: the amended missing-feature policy evaluated at concrete
inputs (affricate candidate with missing VOT score; stop with only a place
score; liquid recording with onset found but no F3). -/
theorem claim_C4_witness :
    Affricate.candidate_score none (some 50) (some 60) = 0 ∧
      Stops.compute_final_score (some 80) none = some 80 ∧
      ((Liquid.run ⟨some 0.1, none, some 10, some 900, some 1.2, some 0.7⟩).evaluation.softscores.map
        Liquid.Softscores.f3) = some 0 :=
  ⟨claim_C4_amended.2.2.2.2.2.2.2.2.2.2.2.2.2.2.2.2.2.2.1 (some 50) (some 60),
    claim_C4_amended.2.2.2.2.2.2.2.2.2.2.2.2.1 80,
    claim_C4_amended.2.2.2.2.2.2.2.2.2.2.2.2.2.2.2.2.2.2.2.2.2.1
      ⟨some 0.1, none, some 10, some 900, some 1.2, some 0.7⟩ 0.1 rfl rfl⟩

/-- C5: whenever voiced-onset detection succeeds, the reported VOT equals
`(voiced_onset_time - event_time) * 1000` floored at 0 (never negative), in
both the stop and the affricate analyzer; and the affricate analyzer caps
the raw VOT at `VOT_CAP_MS = 160` before it reaches the features and the
scoring (running on a raw VOT is identical to running on the capped VOT). -/
theorem claim_C5 :
    (∀ burst_t rel : ℝ,
      Stops.vot_finalize burst_t (some rel) =
        (some (max 0 (((burst_t + rel) - burst_t) * 1000.0)), burst_t,
          some (burst_t + rel)) ∧
      0 ≤ max 0 (((burst_t + rel) - burst_t) * 1000.0)) ∧
    (∀ burst_t : ℝ, Stops.vot_finalize burst_t none = (none, burst_t, none)) ∧
    (∀ burst_t t : ℝ,
      Affricate.vot_finalize burst_t (some t) =
        some (max 0 ((t - burst_t) * 1000.0)) ∧
      0 ≤ max 0 ((t - burst_t) * 1000.0)) ∧
    (∀ burst_t : ℝ, Affricate.vot_finalize burst_t none = none) ∧
    (∀ (target : Affricate.Cat) (t0 t1 burst_t t : ℝ) (c h : Option ℝ),
      (Affricate.run target t0 t1 (Affricate.vot_finalize burst_t (some t)) c h).features =
        [("vot_ms", some (min (max 0 ((t - burst_t) * 1000.0)) Affricate.VOT_CAP_MS)),
         ("frication_duration_ms", some ((t1 - t0) * 1000.0)),
         ("spectral_centroid_hz", c), ("hf_contrast_db", h)]) ∧
    (∀ (target : Affricate.Cat) (t0 t1 : ℝ) (v : ℝ) (c h : Option ℝ),
      Affricate.run target t0 t1 (some v) c h =
        Affricate.run target t0 t1 (some (min v Affricate.VOT_CAP_MS)) c h) := by
  refine ⟨?_, fun _ => rfl, ?_, fun _ => rfl, ?_, ?_⟩
  · intro burst_t rel
    exact ⟨rfl, le_max_left _ _⟩
  · intro burst_t t
    exact ⟨rfl, le_max_left _ _⟩
  · intro target t0 t1 burst_t t c h
    simp [Affricate.run, Affricate.vot_finalize]
  · intro target t0 t1 v c h
    simp only [Affricate.run, Option.map_some']
    rw [min_assoc, min_self]

/-- C6: evaluating each analyzer's Gaussian scoring function at a category's
reference mean gives exactly 100, for every reference (mean, sigma) pair of
all five analyzers (the stop analyzer's Gaussian pairs are the place-F2
centers with `PLACE_SIGMA_HZ` and the F0-z centers with `F0Z_SIGMA`; the
universally-quantified center covers them all). -/
theorem claim_C6 :
    (∀ c : Fricative.Cat,
      Fricative.gaussian_score (Fricative.REF_CENTROID_HZ c)
          (Fricative.REF_CENTROID_HZ c) Fricative.REF_CENTROID_SIGMA = 100 ∧
        Fricative.gaussian_score (Fricative.REF_HF_CONTRAST_DB c)
          (Fricative.REF_HF_CONTRAST_DB c) Fricative.REF_HF_CONTRAST_DB_SIGMA = 100 ∧
        Fricative.gaussian_score (Fricative.REF_DURATION_MS c)
          (Fricative.REF_DURATION_MS c) Fricative.REF_DUR_SIGMA = 100) ∧
    (∀ c : Affricate.Cat,
      Affricate.gaussian_score (some (Affricate.REF_VOT_MS c))
          (Affricate.REF_VOT_MS c) Affricate.REF_VOT_SIGMA = some 100 ∧
        Affricate.gaussian_score (some (Affricate.REF_FRIC_DUR_MS c))
          (Affricate.REF_FRIC_DUR_MS c) Affricate.REF_FRIC_DUR_SIGMA = some 100 ∧
        Affricate.gaussian_score (some (Affricate.REF_CENTROID_HZ c))
          (Affricate.REF_CENTROID_HZ c) Affricate.REF_CENTROID_SIGMA = some 100 ∧
        Affricate.gaussian_score (some (Affricate.REF_HF_CONTRAST_DB c))
          (Affricate.REF_HF_CONTRAST_DB c) Affricate.REF_HF_CONTRAST_SIGMA = some 100) ∧
    (Liquid.gaussian_score (some Liquid.REF_F3_ONSET_HZ) Liquid.REF_F3_ONSET_HZ
        Liquid.REF_F3_SIGMA = some 100 ∧
      Liquid.gaussian_score (some Liquid.REF_CLOSURE_DEPTH_DB) Liquid.REF_CLOSURE_DEPTH_DB
        Liquid.REF_CLOSURE_DEPTH_SIGMA = some 100 ∧
      Liquid.gaussian_score (some Liquid.REF_CENTROID_HZ) Liquid.REF_CENTROID_HZ
        Liquid.REF_CENTROID_SIGMA = some 100 ∧
      Liquid.gaussian_score (some Liquid.REF_FRIC_RATIO_PEAK) Liquid.REF_FRIC_RATIO_PEAK
        Liquid.REF_FRIC_RATIO_SIGMA = some 100 ∧
      Liquid.gaussian_score (some Liquid.REF_VOICED_FRAC) Liquid.REF_VOICED_FRAC
        Liquid.REF_VOICED_FRAC_SIGMA = some 100) ∧
    (∀ p : String,
      Nasal.gaussian_score (some (Nasal.REF_F2_ONSET_HZ p)) (Nasal.REF_F2_ONSET_HZ p)
        Nasal.REF_F2_SIGMA = some 100) ∧
    (Nasal.gaussian_score (some Nasal.REF_LOW_RAT) Nasal.REF_LOW_RAT
        Nasal.REF_LOW_RAT_SIGMA = some 100 ∧
      Nasal.gaussian_score (some Nasal.REF_CENTROID_HZ) Nasal.REF_CENTROID_HZ
        Nasal.REF_CENTROID_SIGMA = some 100) ∧
    (∀ mu : ℝ, Stops.gaussian_distance_score mu mu Stops.PLACE_SIGMA_HZ = 100 ∧
      Stops.gaussian_distance_score mu mu Stops.F0Z_SIGMA = 100) := by
  have hf : ∀ mu s : ℝ, Fricative.gaussian_score mu mu s = 100 := by
    intro mu s; norm_num [Fricative.gaussian_score]
  have hl : ∀ mu s : ℝ, Liquid.gaussian_score (some mu) mu s = some 100 := by
    intro mu s; simp [Liquid.gaussian_score]
  have ha : ∀ mu s : ℝ, Affricate.gaussian_score (some mu) mu s = some 100 := by
    intro mu s; simp [Affricate.gaussian_score]
  have hn : ∀ mu s : ℝ, Nasal.gaussian_score (some mu) mu s = some 100 := by
    intro mu s; simp [Nasal.gaussian_score]
  have hg : ∀ mu s : ℝ, Stops.gaussian_distance_score mu mu s = 100 := by
    intro mu s
    norm_num [Stops.gaussian_distance_score]
  exact ⟨fun c => ⟨hf _ _, hf _ _, hf _ _⟩,
    fun c => ⟨ha _ _, ha _ _, ha _ _, ha _ _⟩,
    ⟨hl _ _, hl _ _, hl _ _, hl _ _, hl _ _⟩,
    fun p => hn _ _, ⟨hn _ _, hn _ _⟩,
    fun mu => ⟨hg _ _, hg _ _⟩⟩

/-- C7: silence trimming never fails (the embedded functions are total, as
the source wraps its body in a catch-all returning the untrimmed signal),
in all four analyzer modules that define `trim_by_intensity` (liquid,
affricate, nasal, fricative); when no intensity frame clears the
peak-minus-margin threshold, or when the computed sample slice is empty
(`b <= a`), every variant returns the original untrimmed signal with a time
offset of 0.0 (the fricative variant also short-circuits on a near-zero
intensity peak, again with `(y, 0.0)`). -/
theorem claim_C7 (frames : List (ℝ × ℝ)) (total : ℝ) (y : List ℝ) (sr : ℕ)
    (margin pad : ℝ) :
    ((frames.filter fun p => valsMax (frames.map Prod.snd) - margin ≤ p.2) = [] →
      Liquid.trim_by_intensity frames total y sr margin pad = (y, 0) ∧
      Affricate.trim_by_intensity frames total y sr margin pad = (y, 0) ∧
      Nasal.trim_by_intensity frames total y sr margin pad = (y, 0) ∧
      Fricative.trim_by_intensity frames total y sr margin pad = (y, 0)) ∧
    (valsMax (frames.map Prod.snd) ≤ 1e-6 →
      Fricative.trim_by_intensity frames total y sr margin pad = (y, 0)) ∧
    (∀ p0 rest,
      (frames.filter fun p => valsMax (frames.map Prod.snd) - margin ≤ p.2) = p0 :: rest →
      min (y.length : ℤ) ⌈(min total (((p0 :: rest).getLastD p0).1 + pad)) * (sr : ℝ)⌉ ≤
        max 0 ⌊(max 0 (p0.1 - pad)) * (sr : ℝ)⌋ →
      Liquid.trim_by_intensity frames total y sr margin pad = (y, 0) ∧
      Affricate.trim_by_intensity frames total y sr margin pad = (y, 0) ∧
      Nasal.trim_by_intensity frames total y sr margin pad = (y, 0) ∧
      Fricative.trim_by_intensity frames total y sr margin pad = (y, 0)) := by
  refine ⟨?_, ?_, ?_⟩
  · intro hempty
    refine ⟨?_, ?_, ?_, ?_⟩
    · simp only [Liquid.trim_by_intensity, hempty]
    · simp only [Affricate.trim_by_intensity, hempty]
    · simp only [Nasal.trim_by_intensity, hempty]
    · simp only [Fricative.trim_by_intensity, hempty]
      by_cases hv : valsMax (frames.map Prod.snd) ≤ 1e-6
      · rw [if_pos hv]
      · rw [if_neg hv]
  · intro hv
    simp only [Fricative.trim_by_intensity]
    rw [if_pos hv]
  · intro p0 rest hcons hba
    refine ⟨?_, ?_, ?_, ?_⟩
    · simp only [Liquid.trim_by_intensity, hcons]
      rw [if_pos hba]
    · simp only [Affricate.trim_by_intensity, hcons]
      rw [if_pos hba]
    · simp only [Nasal.trim_by_intensity, hcons]
      rw [if_pos hba]
    · simp only [Fricative.trim_by_intensity, hcons]
      by_cases hv : valsMax (frames.map Prod.snd) ≤ 1e-6
      · rw [if_pos hv]
      · rw [if_neg hv, if_pos hba]

/-- C7 witness: on an empty intensity track (an unreadable/near-silent
recording) all four trim variants hand back the untrimmed signal with
offset 0; on a one-frame track over an empty sample buffer the computed
slice is empty and all four again return the original signal with
offset 0. -/
theorem claim_C7_witness :
    Liquid.trim_by_intensity [] 0.5 [1, 2] 16000 40 0.05 = ([1, 2], 0) ∧
      Affricate.trim_by_intensity [] 0.5 [1, 2] 16000 40 0.05 = ([1, 2], 0) ∧
      Nasal.trim_by_intensity [] 0.5 [1, 2] 16000 40 0.05 = ([1, 2], 0) ∧
      Fricative.trim_by_intensity [] 0.5 [1, 2] 16000 30 0.05 = ([1, 2], 0) ∧
      Fricative.trim_by_intensity [(0.1, 60)] 0.5 [] 16000 30 0.05 = ([], 0) := by
  have hslice := (claim_C7 [(0.1, 60)] 0.5 [] 16000 30 0.05).2.2 (0.1, 60) []
    (by norm_num [valsMax]) (by norm_num)
  exact ⟨(claim_C7 [] 0.5 [1, 2] 16000 40 0.05).1 rfl |>.1,
    (claim_C7 [] 0.5 [1, 2] 16000 40 0.05).1 rfl |>.2.1,
    (claim_C7 [] 0.5 [1, 2] 16000 40 0.05).1 rfl |>.2.2.1,
    (claim_C7 [] 0.5 [1, 2] 16000 30 0.05).1 rfl |>.2.2.2,
    hslice.2.2.2⟩

/-- Spec-worded HF-contrast: `10*log10(energy[highLo..highHi] /
energy[lowLo..lowHi])` with the same small numeric floors, clamped to
`[lo, hi]`.  The claim instantiates it with bands 4000-8000 over 500-1500
and clamp [-30, 60] for both analyzers. -/
noncomputable def hf_contrast_spec (lowLo lowHi highLo highHi lo hi : ℝ)
    (psd : List (ℝ × ℝ)) : ℝ :=
  let e_low := (psd.map fun p => (p.1, max p.2 1e-18)).foldl
    (fun acc p => if lowLo ≤ p.1 ∧ p.1 < lowHi then acc + p.2 else acc) 0
  let e_high := (psd.map fun p => (p.1, max p.2 1e-18)).foldl
    (fun acc p => if highLo ≤ p.1 ∧ p.1 ≤ highHi then acc + p.2 else acc) 0
  npclip (10.0 * Real.logb 10 ((e_high + 1e-12) / (e_low + 1e-12))) lo hi

theorem npclip_bounds (x lo hi : ℝ) (h : lo ≤ hi) :
    lo ≤ npclip x lo hi ∧ npclip x lo hi ≤ hi := by
  unfold npclip
  exact ⟨le_min (le_max_right x lo) h, min_le_right _ _⟩

theorem logb_ten_thousandth : Real.logb 10 (((1e-3 - 1e-12) + 1e-12 : ℝ) /
    ((1 - 1e-12) + 1e-12)) = -3 := by
  have harg : (((1e-3 - 1e-12) + 1e-12 : ℝ) / ((1 - 1e-12) + 1e-12)) =
      (10 : ℝ) ^ (-3 : ℝ) := by
    rw [Real.rpow_neg (by norm_num)]
    rw [show ((3 : ℝ)) = ((3 : ℕ) : ℝ) by norm_num, Real.rpow_natCast]
    norm_num
  rw [harg, Real.logb_rpow (by norm_num) (by norm_num)]

/-- C8 counterexample: on a spectrum with all low-band power at 1000 Hz and
a 30 dB-down high band at 5000 Hz, the fricative analyzer's HF contrast is
-20 (its clamp is [-20, 40]), while the claimed formula (clamp [-30, 60])
gives -30. -/
theorem claim_C8_counterexample :
    Fricative.hf_contrast_db_of_psd [(1000, 1 - 1e-12), (5000, 1e-3 - 1e-12)] = -20 ∧
      hf_contrast_spec 500 1500 4000 8000 (-30.0) 60.0
        [(1000, 1 - 1e-12), (5000, 1e-3 - 1e-12)] = -30 ∧
      Fricative.hf_contrast_db_of_psd [(1000, 1 - 1e-12), (5000, 1e-3 - 1e-12)] ≠
        hf_contrast_spec 500 1500 4000 8000 (-30.0) 60.0
          [(1000, 1 - 1e-12), (5000, 1e-3 - 1e-12)] := by
  have hmax1 : max (1 - 1e-12 : ℝ) 1e-18 = 1 - 1e-12 := max_eq_left (by norm_num)
  have hmax2 : max (1e-3 - 1e-12 : ℝ) 1e-18 = 1e-3 - 1e-12 := max_eq_left (by norm_num)
  have h1 : Fricative.hf_contrast_db_of_psd [(1000, 1 - 1e-12), (5000, 1e-3 - 1e-12)] = -20 := by
    simp only [Fricative.hf_contrast_db_of_psd, List.map_cons, List.map_nil,
      List.foldl_cons, List.foldl_nil, hmax1, hmax2]
    rw [if_pos (by norm_num : (500.0:ℝ) ≤ 1000 ∧ (1000:ℝ) < 1500.0),
      if_neg (by norm_num : ¬((500.0:ℝ) ≤ 5000 ∧ (5000:ℝ) < 1500.0)),
      if_neg (by norm_num : ¬((4000.0:ℝ) ≤ 1000 ∧ (1000:ℝ) ≤ 8000.0)),
      if_pos (by norm_num : (4000.0:ℝ) ≤ 5000 ∧ (5000:ℝ) ≤ 8000.0)]
    rw [show ((0 : ℝ) + (1e-3 - 1e-12) + 1e-12) / ((0 : ℝ) + (1 - 1e-12) + 1e-12) =
        (((1e-3 - 1e-12) + 1e-12 : ℝ) / ((1 - 1e-12) + 1e-12)) by ring_nf]
    rw [logb_ten_thousandth]
    unfold npclip
    norm_num
  have h2 : hf_contrast_spec 500 1500 4000 8000 (-30.0) 60.0
      [(1000, 1 - 1e-12), (5000, 1e-3 - 1e-12)] = -30 := by
    simp only [hf_contrast_spec, List.map_cons, List.map_nil,
      List.foldl_cons, List.foldl_nil, hmax1, hmax2]
    rw [if_pos (by norm_num : (500:ℝ) ≤ 1000 ∧ (1000:ℝ) < 1500),
      if_neg (by norm_num : ¬((500:ℝ) ≤ 5000 ∧ (5000:ℝ) < 1500)),
      if_neg (by norm_num : ¬((4000:ℝ) ≤ 1000 ∧ (1000:ℝ) ≤ 8000)),
      if_pos (by norm_num : (4000:ℝ) ≤ 5000 ∧ (5000:ℝ) ≤ 8000)]
    rw [show ((0 : ℝ) + (1e-3 - 1e-12) + 1e-12) / ((0 : ℝ) + (1 - 1e-12) + 1e-12) =
        (((1e-3 - 1e-12) + 1e-12 : ℝ) / ((1 - 1e-12) + 1e-12)) by ring_nf]
    rw [logb_ten_thousandth]
    unfold npclip
    norm_num
  refine ⟨h1, h2, ?_⟩
  rw [h1, h2]
  norm_num

/-- C8 (amended): both HF-contrast features are `10*log10` of a floored
band-energy ratio, but the fricative analyzer uses bands 4000-8000 over
500-1500 with clamp [-20, 40], and the affricate analyzer uses bands
3500-8000 over 500-2000 with clamp [-30, 60]; each value always lies inside
its own clamp range. -/
theorem claim_C8_amended :
    (∀ psd, Fricative.hf_contrast_db_of_psd psd =
        hf_contrast_spec 500.0 1500.0 4000.0 8000.0 (-20.0) 40.0 psd ∧
      -20 ≤ Fricative.hf_contrast_db_of_psd psd ∧
      Fricative.hf_contrast_db_of_psd psd ≤ 40) ∧
    (∀ psd, Affricate.hf_db_of_psd psd =
        hf_contrast_spec 500.0 2000.0 3500.0 8000.0 (-30.0) 60.0 psd ∧
      -30 ≤ Affricate.hf_db_of_psd psd ∧
      Affricate.hf_db_of_psd psd ≤ 60) := by
  constructor
  · intro psd
    refine ⟨rfl, ?_, ?_⟩
    · have := (npclip_bounds (10.0 * Real.logb 10
        ((((psd.map fun p => (p.1, max p.2 1e-18)).foldl
            (fun acc p => if 4000.0 ≤ p.1 ∧ p.1 ≤ 8000.0 then acc + p.2 else acc) 0) + 1e-12) /
          (((psd.map fun p => (p.1, max p.2 1e-18)).foldl
            (fun acc p => if 500.0 ≤ p.1 ∧ p.1 < 1500.0 then acc + p.2 else acc) 0) + 1e-12)))
        (-20.0) 40.0 (by norm_num)).1
      calc (-20 : ℝ) ≤ -20.0 := by norm_num
        _ ≤ _ := this
    · exact le_trans ((npclip_bounds _ (-20.0) 40.0 (by norm_num)).2) (by norm_num)
  · intro psd
    refine ⟨rfl, ?_, ?_⟩
    · exact le_trans (by norm_num) ((npclip_bounds _ (-30.0) 60.0 (by norm_num)).1)
    · exact le_trans ((npclip_bounds _ (-30.0) 60.0 (by norm_num)).2) (by norm_num)

/-- C9 counterexample: the liquid analyzer's no-onset short-circuit result
has an empty features map, so the analyzer's feature keys (e.g. "onset_t")
are absent there, contradicting the claim that every result lists all
feature names even when values are null. -/
theorem claim_C9_counterexample :
    (Liquid.run ⟨none, none, none, none, none, none⟩).features = [] ∧
      "onset_t" ∉ (Liquid.run ⟨none, none, none, none, none, none⟩).features.map
        Prod.fst := by
  refine ⟨rfl, ?_⟩
  simp [Liquid.run]

/-- C9 (amended): the stop, fricative, affricate and nasal analyzers list
every feature name as a key on every result path (null-valued features
included; the nasal no-onset path lists all four keys with null values),
and the liquid analyzer does so on its normal path — but the liquid
no-onset short-circuit result carries an empty features map. -/
theorem claim_C9_amended :
    (∀ (t : Fricative.Cat) (c h : Option ℝ) (fs fe off : ℝ),
      (Fricative.run t c h fs fe off).features.map Prod.fst =
        ["spectral_centroid_hz", "hf_contrast", "duration_ms", "trim_offset_s",
         "fric_start_t", "fric_end_t"]) ∧
    (∀ (t : Affricate.Cat) (t0 t1 : ℝ) (vot c h : Option ℝ),
      (Affricate.run t t0 t1 vot c h).features.map Prod.fst =
        ["vot_ms", "frication_duration_ms", "spectral_centroid_hz", "hf_contrast_db"]) ∧
    (∀ (tp tph : String) (vot f2 f0 : Option ℝ) (cal : Option (ℝ × ℝ)),
      (Stops.run tp tph vot f2 f0 cal).features.map Prod.fst =
        ["vot_ms", "f2_onset_hz", "f0_onset_hz", "f0_z"]) ∧
    (∀ (tp : String) (ot lr ce f2 : Option ℝ),
      (Nasal.run tp ot lr ce f2).features.map Prod.fst = Nasal.FEATURE_KEYS) ∧
    (∀ (fx : Liquid.Extraction) (t : ℝ), fx.onset_t = some t →
      (Liquid.run fx).features.map Prod.fst =
        ["onset_t", "f3_onset_hz", "closure_depth_db", "spectral_centroid_hz",
         "frication_ratio_peak", "voiced_fraction"]) ∧
    (∀ fx : Liquid.Extraction, fx.onset_t = none → (Liquid.run fx).features = []) := by
  refine ⟨?_, ?_, ?_, ?_, ?_, ?_⟩
  · intro t c h fs fe off
    simp [Fricative.run]
  · intro t t0 t1 vot c h
    simp [Affricate.run]
  · intro tp tph vot f2 f0 cal
    simp [Stops.run]
  · intro tp ot lr ce f2
    cases ot <;> simp [Nasal.run, Nasal.FEATURE_KEYS]
  · intro fx t h
    simp [Liquid.run, h]
  · intro fx h
    simp [Liquid.run, h]

/-- C9 witness: the amended key contract evaluated on a concrete measured
liquid recording. -/
theorem claim_C9_witness :
    (Liquid.run ⟨some 0.1, some 2500, some 10, some 900, some 1.2, some 0.7⟩).features.map
        Prod.fst =
      ["onset_t", "f3_onset_hz", "closure_depth_db", "spectral_centroid_hz",
       "frication_ratio_peak", "voiced_fraction"] :=
  claim_C9_amended.2.2.2.2.1 ⟨some 0.1, some 2500, some 10, some 900, some 1.2, some 0.7⟩
    0.1 rfl

/-- C10: each analyzer rejects an unsupported syllable with a bare error
value — a constant that does not depend on any of the audio-derived inputs,
so no audio loading or signal processing takes place on that path — and the
error value carries only the error message (no syllable/targets/features/
evaluation/feedback fields). -/
theorem claim_C10 (s : String) :
    (s ∉ Stops.STOP_SET →
      ∀ (vot f2 f0 : Option ℝ) (cal : Option (ℝ × ℝ)),
        Stops.analyze_stop s vot f2 f0 cal =
          Except.error (s ++ " is not a supported stop syllable in this module.")) ∧
    (s ∉ Fricative.FRICATIVE_SET →
      ∀ (c h : Option ℝ) (fs fe off : ℝ),
        Fricative.analyze_fricative s c h fs fe off =
          Except.error "Unsupported fricative syllable") ∧
    (s ∉ Affricate.AFFRICATE_SET →
      ∀ (t0 t1 : ℝ) (vot c h : Option ℝ),
        Affricate.analyze_affricate s t0 t1 vot c h =
          Except.error "Unsupported affricate syllable") ∧
    (s ∉ Liquid.LIQUID_SET →
      ∀ fx, Liquid.analyze_liquid s fx =
        Except.error "Unsupported liquid syllable (supported: 라)") := by
  refine ⟨?_, ?_, ?_, ?_⟩
  · intro hmem vot f2 f0 cal
    simp [Stops.analyze_stop, hmem]
  · intro hmem c h fs fe off
    simp [Fricative.analyze_fricative, hmem]
  · intro hmem t0 t1 vot c h
    simp [Affricate.analyze_affricate, hmem]
  · intro hmem fx
    simp [Liquid.analyze_liquid, hmem]

/-- C10 witness: the syllable "모" is in none of the four analyzers'
supported sets; every analyzer returns the bare error value on it. -/
theorem claim_C10_witness :
    Stops.analyze_stop "모" none none none none =
        Except.error ("모" ++ " is not a supported stop syllable in this module.") ∧
      Fricative.analyze_fricative "모" none none 0 0 0 =
        Except.error "Unsupported fricative syllable" ∧
      Affricate.analyze_affricate "모" 0 0 none none none =
        Except.error "Unsupported affricate syllable" ∧
      Liquid.analyze_liquid "모" ⟨none, none, none, none, none, none⟩ =
        Except.error "Unsupported liquid syllable (supported: 라)" :=
  ⟨(claim_C10 "모").1 (by decide) none none none none,
    (claim_C10 "모").2.1 (by decide) none none 0 0 0,
    (claim_C10 "모").2.2.1 (by decide) 0 0 none none none,
    (claim_C10 "모").2.2.2 (by decide) ⟨none, none, none, none, none, none⟩⟩
